import Mathlib

/-!
Verification of the fraud-ring detection core of the InsuraX repository
(`src/fraud_ring_detection.py`).

The Python module loads user / policy / claim records into a labelled
property graph (Neo4j), runs three pattern detectors (shared phone,
duplicated policy terms, duplicated claims), deduplicates the detected
networks, analyses per-user fraud indicators and computes per-user risk
scores.  This file is a shallow embedding of that pipeline:

* the graph (`Graph`) holds the node records created by
  `_create_user_node` / `_create_policy_node` / `_create_claim_node` and
  the `OWNS` / `HAS_CLAIM` / `FILED` edges created by
  `_create_relationships`;
* the Cypher pattern queries are embedded as list computations over the
  graph, with `MATCH` clauses as nested iteration, `WHERE` clauses as
  decidable filters, `collect(DISTINCT _)` grouping as per-group list
  computations and `reduce(...)` as folds;
* Neo4j's calendar builtins `date(_)` / `datetime(_)` are abstracted by
  explicit function parameters (strings are mapped to abstract day
  numbers); everything else is executable.

Numbers are modelled as `ℚ` (Python floats / Neo4j numbers; no overflow
or rounding is relevant at the scales involved), strings as `String`.
-/

namespace FraudRing

/-- A Neo4j property value: a string or a number. -/
inductive PropVal where
  | str (s : String)
  | num (q : ℚ)
  deriving DecidableEq, Repr

/-- A user record coming from Firestore: a loose string-keyed mapping.
`none` models an absent key (Python `dict.get` returning the default). -/
structure UserInput where
  uid : Option String
  id : Option String
  email : Option String
  phone : Option String
  displayName : Option String
  insured_sex : Option String
  insured_age : Option ℚ
  insured_occupation : Option String
  address : Option String
  deriving DecidableEq, Repr

/-- A user input with every key absent. -/
def emptyUserInput : UserInput :=
  ⟨none, none, none, none, none, none, none, none, none⟩

/-- A policy record coming from Firestore. -/
structure PolicyInput where
  policyId : Option String
  policyName : Option String
  insurance_type : Option String
  policy_term : Option String
  policy_start_date : Option String
  policy_end_date : Option String
  policy_annual_premium : Option ℚ
  sum_insured : Option ℚ
  policy_state : Option String
  policy_city : Option String
  holderName : Option String
  userId : Option String
  deriving DecidableEq, Repr

/-- A policy input with every key absent. -/
def emptyPolicyInput : PolicyInput :=
  ⟨none, none, none, none, none, none, none, none, none, none, none, none⟩

/-- A claim record coming from Firestore. -/
structure ClaimInput where
  claimId : Option String
  policyId : Option String
  claimType : Option String
  claimAmount : Option ℚ
  status : Option String
  submittedDate : Option String
  incidentDate : Option String
  description : Option String
  insurance_type : Option String
  incident_time : Option String
  accident_location : Option String
  hospital_name : Option String
  auto_make : Option String
  auto_model : Option String
  auto_year : Option ℚ
  userId : Option String
  fraudScore : Option ℚ
  riskLevel : Option String
  deriving DecidableEq, Repr

/-- A claim input with every key absent. -/
def emptyClaimInput : ClaimInput :=
  ⟨none, none, none, none, none, none, none, none, none, none, none, none,
   none, none, none, none, none, none⟩

/-- A `User` node, carrying exactly the properties written by the `CREATE`
query in `_create_user_node`. -/
structure UserNode where
  userId : String
  email : String
  phone : String
  displayName : String
  insured_sex : String
  insured_age : ℚ
  insured_occupation : String
  address : String
  createdAt : String
  deriving DecidableEq, Repr

/-- Cypher property lookup on a `User` node.  `_create_user_node` writes
exactly the nine keys below; any other key — in particular `name`, which the
policy- and claim-network queries read as `u1.name` / `u2.name` — is absent
on the node, so the lookup yields null (`none`). -/
def UserNode.getProp (u : UserNode) : String → Option PropVal
  | "userId" => some (.str u.userId)
  | "email" => some (.str u.email)
  | "phone" => some (.str u.phone)
  | "displayName" => some (.str u.displayName)
  | "insured_sex" => some (.str u.insured_sex)
  | "insured_age" => some (.num u.insured_age)
  | "insured_occupation" => some (.str u.insured_occupation)
  | "address" => some (.str u.address)
  | "createdAt" => some (.str u.createdAt)
  | _ => none

/-- The (always-null) value of the `name` property of a `User` node, as read
by `u1.name` / `u2.name` in `_detect_policy_networks` and
`_detect_claim_networks`. -/
def UserNode.nameProp (u : UserNode) : Option String :=
  match u.getProp "name" with
  | some (.str s) => some s
  | _ => none

/-- A `Policy` node, as written by `_create_policy_node`. -/
structure PolicyNode where
  policyId : String
  policyName : String
  insurance_type : String
  policy_term : String
  policy_start_date : String
  policy_end_date : String
  policy_annual_premium : ℚ
  sum_insured : ℚ
  policy_state : String
  policy_city : String
  holderName : String
  userId : String
  deriving DecidableEq, Repr

/-- A `Claim` node, as written by `_create_claim_node`. -/
structure ClaimNode where
  claimId : String
  policyId : String
  claimType : String
  claimAmount : ℚ
  status : String
  submittedDate : String
  incidentDate : String
  description : String
  insurance_type : String
  incident_time : String
  accident_location : String
  hospital_name : String
  auto_make : String
  auto_model : String
  auto_year : ℚ
  userId : String
  fraudScore : ℚ
  riskLevel : String
  deriving DecidableEq, Repr

/-- Python `x or default` on a nullable string: both a missing (null) value
and the empty string are falsy and are replaced by the default. -/
def pyOr (v : Option String) (d : String) : String :=
  match v with
  | none => d
  | some s => if s = "" then d else s

/-- The Neo4j graph: node records plus the directed edges created by
`_create_relationships`.  Edges are stored as (source id, target id)
pairs — node ids are unique in any graph built by a successful load, so the
id pair identifies the endpoints. -/
structure Graph where
  users : List UserNode
  policies : List PolicyNode
  claims : List ClaimNode
  owns : List (String × String)
  hasClaim : List (String × String)
  filed : List (String × String)
  deriving DecidableEq, Repr

/-- The empty graph (the state after `MATCH (n) DETACH DELETE n`). -/
def emptyGraph : Graph := ⟨[], [], [], [], [], []⟩

/-- `_create_user_node`: field defaulting per `user.get(key, default)`;
`userId` comes from `user.get('uid', user.get('id', ''))`;
`createdAt` is `datetime.now().isoformat()`, passed in as `now`. -/
def createUserNode (now : String) (u : UserInput) : UserNode :=
  { userId := u.uid.getD (u.id.getD "")
    email := u.email.getD ""
    phone := u.phone.getD ""
    displayName := u.displayName.getD ""
    insured_sex := u.insured_sex.getD ""
    insured_age := u.insured_age.getD 0
    insured_occupation := u.insured_occupation.getD ""
    address := u.address.getD ""
    createdAt := now }

/-- `_create_policy_node`: field defaulting per `policy.get(key, default)`. -/
def createPolicyNode (p : PolicyInput) : PolicyNode :=
  { policyId := p.policyId.getD ""
    policyName := p.policyName.getD ""
    insurance_type := p.insurance_type.getD ""
    policy_term := p.policy_term.getD ""
    policy_start_date := p.policy_start_date.getD ""
    policy_end_date := p.policy_end_date.getD ""
    policy_annual_premium := p.policy_annual_premium.getD 0
    sum_insured := p.sum_insured.getD 0
    policy_state := p.policy_state.getD ""
    policy_city := p.policy_city.getD ""
    holderName := p.holderName.getD ""
    userId := p.userId.getD "" }

/-- `_create_claim_node`: field defaulting per `claim.get(key, default)`. -/
def createClaimNode (c : ClaimInput) : ClaimNode :=
  { claimId := c.claimId.getD ""
    policyId := c.policyId.getD ""
    claimType := c.claimType.getD ""
    claimAmount := c.claimAmount.getD 0
    status := c.status.getD ""
    submittedDate := c.submittedDate.getD ""
    incidentDate := c.incidentDate.getD ""
    description := c.description.getD ""
    insurance_type := c.insurance_type.getD ""
    incident_time := c.incident_time.getD ""
    accident_location := c.accident_location.getD ""
    hospital_name := c.hospital_name.getD ""
    auto_make := c.auto_make.getD ""
    auto_model := c.auto_model.getD ""
    auto_year := c.auto_year.getD 0
    userId := c.userId.getD ""
    fraudScore := c.fraudScore.getD 0
    riskLevel := c.riskLevel.getD "" }

/-- The record passed to `_calculate_network_risk_score`.  The phone-network
query returns all four keys; the policy-network query returns only the two
claim counts, so the amount keys are absent (`none`) in its records. -/
structure NetRecord where
  claims_count1 : Option ℚ
  claims_count2 : Option ℚ
  total_amount1 : Option ℚ
  total_amount2 : Option ℚ
  deriving DecidableEq, Repr

/-- `_calculate_network_risk_score`: base 0.3, a claim-count bonus, a
claim-amount bonus, capped at 1.  `record.get(key, 0)` is `Option.getD _ 0`. -/
def calculateNetworkRiskScore (record : NetRecord) : ℚ :=
  let base_score : ℚ := 3/10
  let claims_count := record.claims_count1.getD 0 + record.claims_count2.getD 0
  let base_score :=
    if claims_count > 5 then base_score + 3/10
    else if claims_count > 2 then base_score + 2/10
    else base_score
  let total_amount := record.total_amount1.getD 0 + record.total_amount2.getD 0
  let base_score :=
    if total_amount > 1000000 then base_score + 3/10
    else if total_amount > 500000 then base_score + 2/10
    else base_score
  min base_score 1

/-- An `OWNS` edge from user `u` to policy `p`. -/
def ownsEdge (g : Graph) (u : UserNode) (p : PolicyNode) : Prop :=
  (u.userId, p.policyId) ∈ g.owns

instance (g : Graph) (u : UserNode) (p : PolicyNode) : Decidable (ownsEdge g u p) :=
  inferInstanceAs (Decidable ((u.userId, p.policyId) ∈ g.owns))

/-- A `HAS_CLAIM` edge from policy `p` to claim `c`. -/
def hasClaimEdge (g : Graph) (p : PolicyNode) (c : ClaimNode) : Prop :=
  (p.policyId, c.claimId) ∈ g.hasClaim

instance (g : Graph) (p : PolicyNode) (c : ClaimNode) : Decidable (hasClaimEdge g p c) :=
  inferInstanceAs (Decidable ((p.policyId, c.claimId) ∈ g.hasClaim))

/-- A `FILED` edge from user `u` to claim `c`. -/
def filedEdge (g : Graph) (u : UserNode) (c : ClaimNode) : Prop :=
  (u.userId, c.claimId) ∈ g.filed

instance (g : Graph) (u : UserNode) (c : ClaimNode) : Decidable (filedEdge g u c) :=
  inferInstanceAs (Decidable ((u.userId, c.claimId) ∈ g.filed))

/-- The claims reachable from `u` along `OWNS` → `HAS_CLAIM`
(`collect(DISTINCT c1)` over the matched paths: each claim node once). -/
def pathClaims (g : Graph) (u : UserNode) : List ClaimNode :=
  g.claims.filter fun c => decide (∃ p ∈ g.policies, ownsEdge g u p ∧ hasClaimEdge g p c)

/-- The claims of a policy along `HAS_CLAIM` (`collect(DISTINCT c1)` in the
policy-network query, whose groups fix the policy `p1`). -/
def policyClaims (g : Graph) (p : PolicyNode) : List ClaimNode :=
  g.claims.filter fun c => decide (hasClaimEdge g p c)

/-- The claims filed by `u` along `FILED`. -/
def filedClaims (g : Graph) (u : UserNode) : List ClaimNode :=
  g.claims.filter fun c => decide (filedEdge g u c)

/-- `reduce(total = 0, claim in claims | total + claim.claimAmount)`. -/
def totalAmount (claims : List ClaimNode) : ℚ :=
  claims.foldl (fun total c => total + c.claimAmount) 0

/-- `reduce(total = 0, claim in claims | total + claim.fraudScore)`. -/
def totalFraudScore (claims : List ClaimNode) : ℚ :=
  claims.foldl (fun total c => total + c.fraudScore) 0

/-- A suspicious network as assembled by the three detectors. -/
structure Network where
  type : String
  users : List String
  user_names : List String
  user_emails : List String
  shared_attribute : String
  risk_score : ℚ
  details : List (String × PropVal)
  deriving DecidableEq, Repr

/-- The row combinations of two cartesian `MATCH` clauses over the same
node list. -/
def pairsOf {α : Type} (l : List α) : List (α × α) :=
  l.flatMap fun x => l.map fun y => (x, y)

/-- The row combinations of two cartesian `MATCH` clauses over users. -/
def userPairs (g : Graph) : List (UserNode × UserNode) :=
  pairsOf g.users

/-- The network dictionary built per record in `_detect_phone_networks`. -/
def mkPhoneNetwork (u1 u2 : UserNode) (claims1 claims2 : List ClaimNode) : Network :=
  { type := "phone_network"
    users := [u1.userId, u2.userId]
    user_names := [pyOr (some u1.displayName) "Unknown", pyOr (some u2.displayName) "Unknown"]
    user_emails := [pyOr (some u1.email) "No email", pyOr (some u2.email) "No email"]
    shared_attribute := u1.phone
    risk_score := calculateNetworkRiskScore
      ⟨some claims1.length, some claims2.length,
       some (totalAmount claims1), some (totalAmount claims2)⟩
    details := [("phone", .str u1.phone),
                ("claims_count1", .num claims1.length),
                ("claims_count2", .num claims2.length),
                ("total_amount1", .num (totalAmount claims1)),
                ("total_amount2", .num (totalAmount claims2))] }

/-- `_detect_phone_networks`: one record per ordered user pair with equal
non-empty phones, distinct ids, and at least one `OWNS`→`HAS_CLAIM` claim on
each side (the `MATCH` needs one path per side; the query's
`size(claims1) > 0 AND size(claims2) > 0` re-checks it). -/
def detectPhoneNetworks (g : Graph) : List Network :=
  (userPairs g).filterMap fun up =>
    let claims1 := pathClaims g up.1
    let claims2 := pathClaims g up.2
    if up.1.phone = up.2.phone ∧ up.1.userId ≠ up.2.userId ∧ up.1.phone ≠ ""
        ∧ 0 < claims1.length ∧ 0 < claims2.length
    then some (mkPhoneNetwork up.1 up.2 claims1 claims2)
    else none

/-- Code-point comparison of char lists: Python string `<=`. -/
def charListLe : List Char → List Char → Bool
  | [], _ => true
  | _ :: _, [] => false
  | a :: as, b :: bs => if a < b then true else if b < a then false else charListLe as bs

/-- Python `s <= t` on strings (code-point lexicographic order). -/
def strLe (s t : String) : Bool := charListLe s.data t.data

/-- Sorted insertion of a string (helper for Python `sorted`). -/
def insertStr (x : String) : List String → List String
  | [] => [x]
  | y :: ys => if strLe x y then x :: y :: ys else y :: insertStr x ys

/-- Python `sorted(xs)` on a list of strings. -/
def sortStrings (l : List String) : List String := l.foldr insertStr []

/-- The dedup key of `_remove_duplicate_networks`:
`tuple(sorted(network['users']))`. -/
def networkKey (n : Network) : List String := sortStrings n.users

/-- The loop of `_remove_duplicate_networks`: `seen` holds the keys already
encountered; only the first network per key is kept. -/
def dedupNetworks (seen : List (List String)) : List Network → List Network
  | [] => []
  | n :: rest =>
    if networkKey n ∈ seen then dedupNetworks seen rest
    else n :: dedupNetworks (networkKey n :: seen) rest

/-- `_remove_duplicate_networks`. -/
def removeDuplicateNetworks (networks : List Network) : List Network :=
  dedupNetworks [] networks

/-- The network dictionary built per record in `_detect_policy_networks`.
The query's `RETURN` carries no claim totals, so the risk-score record has
absent `total_amount` keys, and `u1.name` / `u2.name` read a property that
user nodes do not have. -/
def mkPolicyNetwork (u1 u2 : UserNode) (p1 p2 : PolicyNode)
    (claims1 claims2 : List ClaimNode) : Network :=
  { type := "policy_network"
    users := [u1.userId, u2.userId]
    user_names := [pyOr u1.nameProp "Unknown", pyOr u2.nameProp "Unknown"]
    user_emails := [pyOr (some u1.email) "No email", pyOr (some u2.email) "No email"]
    shared_attribute := "Same " ++ p1.insurance_type ++ " policy details"
    risk_score := calculateNetworkRiskScore
      ⟨some claims1.length, some claims2.length, none, none⟩
    details := [("policy1", .str p1.policyId), ("policy2", .str p2.policyId),
                ("insurance_type", .str p1.insurance_type),
                ("premium", .num p1.policy_annual_premium),
                ("sum_insured", .num p1.sum_insured),
                ("claims_count1", .num claims1.length),
                ("claims_count2", .num claims2.length)] }

/-- `_detect_policy_networks`: one record per (u1, u2, p1, p2) combination
with distinct users, owned policies matching on insurance type, annual
premium (> 0) and sum insured, and at least one claim on each policy. -/
def detectPolicyNetworks (g : Graph) : List Network :=
  (userPairs g).flatMap fun up =>
    (pairsOf g.policies).filterMap fun pp =>
      let claims1 := policyClaims g pp.1
      let claims2 := policyClaims g pp.2
      if ownsEdge g up.1 pp.1 ∧ ownsEdge g up.2 pp.2
          ∧ up.1.userId ≠ up.2.userId
          ∧ pp.1.insurance_type = pp.2.insurance_type
          ∧ pp.1.policy_annual_premium = pp.2.policy_annual_premium
          ∧ pp.1.sum_insured = pp.2.sum_insured
          ∧ 0 < pp.1.policy_annual_premium
          ∧ 0 < claims1.length ∧ 0 < claims2.length
      then some (mkPolicyNetwork up.1 up.2 pp.1 pp.2 claims1 claims2)
      else none

/-- The network dictionary built per record in `_detect_claim_networks`:
the risk score is the constant `0.9`. -/
def mkClaimNetwork (u1 u2 : UserNode) (c1 c2 : ClaimNode) (p1 : PolicyNode) : Network :=
  { type := "claim_network"
    users := [u1.userId, u2.userId]
    user_names := [pyOr u1.nameProp "Unknown", pyOr u2.nameProp "Unknown"]
    user_emails := [pyOr (some u1.email) "No email", pyOr (some u2.email) "No email"]
    shared_attribute := "Identical " ++ c1.claimType ++ " claim"
    risk_score := 9/10
    details := [("claim1", .str c1.claimId), ("claim2", .str c2.claimId),
                ("claim_type", .str c1.claimType),
                ("claim_amount", .num c1.claimAmount),
                ("incident_date", .str c1.incidentDate),
                ("insurance_type", .str p1.insurance_type)] }

/-- `_detect_claim_networks`: one record per (u1, u2, c1, c2, p1, p2)
combination with distinct users filing claims of equal type, equal positive
amount and equal incident date, under policies of equal insurance type
(the second `MATCH` has no grouping, so records are per combination). -/
def detectClaimNetworks (g : Graph) : List Network :=
  (userPairs g).flatMap fun up =>
    (pairsOf g.claims).flatMap fun cc =>
      (pairsOf g.policies).filterMap fun pp =>
        if filedEdge g up.1 cc.1 ∧ filedEdge g up.2 cc.2
            ∧ up.1.userId ≠ up.2.userId
            ∧ cc.1.claimType = cc.2.claimType
            ∧ cc.1.claimAmount = cc.2.claimAmount
            ∧ cc.1.incidentDate = cc.2.incidentDate
            ∧ 0 < cc.1.claimAmount
            ∧ hasClaimEdge g pp.1 cc.1 ∧ hasClaimEdge g pp.2 cc.2
            ∧ pp.1.insurance_type = pp.2.insurance_type
        then some (mkClaimNetwork up.1 up.2 cc.1 cc.2 pp.1)
        else none

/-- `_detect_suspicious_networks`: phone networks, then policy networks,
then claim networks, then pair deduplication. -/
def detectSuspiciousNetworks (g : Graph) : List Network :=
  removeDuplicateNetworks
    (detectPhoneNetworks g ++ detectPolicyNetworks g ++ detectClaimNetworks g)

/-- Sorted insertion by a boolean comparison (stable). -/
def insertBy {α : Type} (le : α → α → Bool) (x : α) : List α → List α
  | [] => [x]
  | y :: ys => if le x y then x :: y :: ys else y :: insertBy le x ys

/-- Insertion sort by a boolean comparison (`ORDER BY`). -/
def sortBy {α : Type} (le : α → α → Bool) (l : List α) : List α :=
  l.foldr (insertBy le) []

/-- A row of the high-fraud-score indicator query. -/
structure FraudUserRecord where
  userId : String
  email : String
  phone : String
  claim_count : ℕ
  avg_fraud_score : ℚ
  total_amount : ℚ
  deriving DecidableEq, Repr

/-- `ORDER BY avg_fraud_score DESC`. -/
def byAvgDesc (a b : FraudUserRecord) : Bool :=
  decide (b.avg_fraud_score ≤ a.avg_fraud_score)

/-- The grouped rows of the high-fraud-score query: one row per user with at
least one claim of `fraudScore > 0.7`.  The `WHERE c.fraudScore > 0.7`
filter precedes `collect(c)`, so the collected claims — and hence the count,
average and total of the row — range over the high-score claims only. -/
def highFraudRows (g : Graph) : List FraudUserRecord :=
  g.users.filterMap fun u =>
    let claims := (filedClaims g u).filter fun c => decide (c.fraudScore > 7/10)
    if 0 < claims.length then
      some ⟨u.userId, u.email, u.phone, claims.length,
            totalFraudScore claims / claims.length, totalAmount claims⟩
    else none

/-- The `high_fraud_score_users` indicator of `_analyze_fraud_indicators`:
rows ordered by average fraud score descending, limited to 20. -/
def highFraudScoreUsers (g : Graph) : List FraudUserRecord :=
  (sortBy byAvgDesc (highFraudRows g)).take 20

/-- A row of the rapid-claim-filer queries (the stored dictionary keeps the
user, the claim count and the total amount). -/
structure RapidRecord where
  userId : String
  email : String
  phone : String
  claim_count : ℕ
  total_amount : ℚ
  deriving DecidableEq, Repr

/-- `ORDER BY claim_count DESC`. -/
def byCountDesc (a b : RapidRecord) : Bool :=
  decide (b.claim_count ≤ a.claim_count)

/-- The date-parsing `CASE` of the rapid-filer query: a date string without
`-` maps to null; one with `-` is parsed by Neo4j `datetime(_)` when it
contains `T` and by `date(_)` otherwise.  The two calendar builtins are
abstracted by the parameters `pdatetime` / `pdate`, which return abstract
day numbers. -/
def parsedDate (pdatetime pdate : String → ℤ) (s : String) : Option ℤ :=
  if s.data.contains '-' then
    if s.data.contains 'T' then some (pdatetime s) else some (pdate s)
  else none

/-- The date-filtered rapid-filer query: per user, each filed claim with a
non-empty, parseable submission date is paired with its parsed date; users
with at least two such claims whose date span is at most 30 days
(`duration.between(earliest, latest).days <= 30`) produce a row.  The
`reduce` max / min both start from `head(dates)`. -/
def primaryRapidFilers (pdatetime pdate : String → ℤ) (g : Graph) : List RapidRecord :=
  g.users.filterMap fun u =>
    let rows := (filedClaims g u).filterMap fun c =>
      if c.submittedDate ≠ "" then
        (parsedDate pdatetime pdate c.submittedDate).map fun d => (c, d)
      else none
    match rows with
    | [] => none
    | (_, d0) :: _ =>
      if 2 ≤ rows.length then
        let dates := rows.map fun r => r.2
        let latest := dates.foldl (fun m d => if d > m then d else m) d0
        let earliest := dates.foldl (fun m d => if d < m then d else m) d0
        if latest - earliest ≤ 30 then
          some ⟨u.userId, u.email, u.phone, rows.length,
                totalAmount (rows.map fun r => r.1)⟩
        else none
      else none

/-- The fallback rapid-filer query: every user with at least two filed
claims, with no date condition at all. -/
def fallbackRapidRows (g : Graph) : List RapidRecord :=
  g.users.filterMap fun u =>
    let claims := filedClaims g u
    if 2 ≤ claims.length then
      some ⟨u.userId, u.email, u.phone, claims.length, totalAmount claims⟩
    else none

/-- The `rapid_claim_filers` indicator of `_analyze_fraud_indicators`: the
date-filtered query ordered by claim count descending; when it yields zero
rows, the fallback query ordered by claim count descending, limited to 10. -/
def rapidClaimFilers (pdatetime pdate : String → ℤ) (g : Graph) : List RapidRecord :=
  let primary := sortBy byCountDesc (primaryRapidFilers pdatetime pdate g)
  if primary.isEmpty then (sortBy byCountDesc (fallbackRapidRows g)).take 10
  else primary

/-- The per-user record stored by `_calculate_risk_scores`. -/
structure RiskRecord where
  overall_risk : ℚ
  claim_count : ℕ
  avg_fraud_score : ℚ
  total_amount : ℚ
  max_claim_amount : ℚ
  displayName : String
  email : String
  deriving DecidableEq, Repr

/-- `reduce(max_val = 0, claim in claims | CASE WHEN claim.claimAmount >
max_val THEN claim.claimAmount ELSE max_val END)`. -/
def maxClaimAmount (claims : List ClaimNode) : ℚ :=
  claims.foldl (fun m c => if c.claimAmount > m then c.claimAmount else m) 0

/-- `_calculate_risk_scores`: one record per user with at least one filed
claim; `overall_risk = claim_count_score * 0.3 + fraud_score * 0.5 +
amount_score * 0.2`.  The Python `record['avg_fraud_score'] or 0` is the
identity here: node `fraudScore`s are always numbers, so the average is
never null, and `or` maps 0.0 to 0. -/
def calculateRiskScores (g : Graph) : List (String × RiskRecord) :=
  g.users.filterMap fun u =>
    let claims := filedClaims g u
    if 0 < claims.length then
      let avg := totalFraudScore claims / claims.length
      let total := totalAmount claims
      let claim_count_score := min ((claims.length : ℚ) / 10) 1
      let amount_score := min (total / 1000000) 1
      some (u.userId,
        ⟨claim_count_score * (3/10) + avg * (5/10) + amount_score * (2/10),
         claims.length, avg, total, maxClaimAmount claims,
         pyOr (some u.displayName) "Unknown User", pyOr (some u.email) "No email"⟩)
    else none

/-- Creating user nodes: with the uniqueness constraint on `User.userId`
(from `create_schema`), `CREATE` raises on a duplicate id and the exception
aborts the whole load. -/
def addUserNodes (now : String) : Graph → List UserInput → Except String Graph
  | g, [] => .ok g
  | g, u :: rest =>
    let node := createUserNode now u
    if g.users.any fun x => decide (x.userId = node.userId) then .error "duplicate userId"
    else addUserNodes now { g with users := g.users ++ [node] } rest

/-- Creating policy nodes (uniqueness constraint on `Policy.policyId`). -/
def addPolicyNodes : Graph → List PolicyInput → Except String Graph
  | g, [] => .ok g
  | g, p :: rest =>
    let node := createPolicyNode p
    if g.policies.any fun x => decide (x.policyId = node.policyId) then .error "duplicate policyId"
    else addPolicyNodes { g with policies := g.policies ++ [node] } rest

/-- Creating claim nodes (uniqueness constraint on `Claim.claimId`). -/
def addClaimNodes : Graph → List ClaimInput → Except String Graph
  | g, [] => .ok g
  | g, c :: rest =>
    let node := createClaimNode c
    if g.claims.any fun x => decide (x.claimId = node.claimId) then .error "duplicate claimId"
    else addClaimNodes { g with claims := g.claims ++ [node] } rest

/-- `_create_relationships`: for each policy input, an `OWNS` edge per
matched (user, policy) node pair; for each claim input, a `HAS_CLAIM` edge
per matched (policy, claim) pair and a `FILED` edge per matched
(user, claim) pair.  With no matching endpoint, no edge is created. -/
def createRelationships (g : Graph) (policies : List PolicyInput)
    (claims : List ClaimInput) : Graph :=
  { g with
    owns := g.owns ++ policies.flatMap fun pol =>
      (g.users.filter fun u => decide (u.userId = pol.userId.getD "")).flatMap fun u =>
        (g.policies.filter fun p => decide (p.policyId = pol.policyId.getD "")).map fun p =>
          (u.userId, p.policyId)
    hasClaim := g.hasClaim ++ claims.flatMap fun cl =>
      (g.policies.filter fun p => decide (p.policyId = cl.policyId.getD "")).flatMap fun p =>
        (g.claims.filter fun c => decide (c.claimId = cl.claimId.getD "")).map fun c =>
          (p.policyId, c.claimId)
    filed := g.filed ++ claims.flatMap fun cl =>
      (g.users.filter fun u => decide (u.userId = cl.userId.getD "")).flatMap fun u =>
        (g.claims.filter fun c => decide (c.claimId = cl.claimId.getD "")).map fun c =>
          (u.userId, c.claimId) }

/-- `load_data_from_firestore`: wipe the graph (`MATCH (n) DETACH DELETE n`
— the prior graph is discarded), create user, policy and claim nodes (any
creation failure aborts the load), then create the relationships. -/
def loadDataFromFirestore (_prior : Graph) (now : String)
    (users : List UserInput) (policies : List PolicyInput)
    (claims : List ClaimInput) : Except String Graph :=
  match addUserNodes now emptyGraph users with
  | .error e => .error e
  | .ok g1 =>
    match addPolicyNodes g1 policies with
    | .error e => .error e
    | .ok g2 =>
      match addClaimNodes g2 claims with
      | .error e => .error e
      | .ok g3 => .ok (createRelationships g3 policies claims)

/-- Modelled from the spec (§4.4): the risk-score formula as the spec words
it, applied to a combined claim count and a combined claim total.  Used to
compare the detectors' actual scores against the spec's formula. -/
def specNetworkRiskScore (count total : ℚ) : ℚ :=
  max 0 (min 1 ((3/10 : ℚ)
    + (if count > 5 then 3/10 else if count > 2 then 2/10 else 0)
    + (if total > 1000000 then 3/10 else if total > 500000 then 2/10 else 0)))

/-! Concrete graphs used to evaluate the pipeline on explicit inputs. -/

/-- A user node with all-default (empty / zero) properties. -/
def baseUser : UserNode := ⟨"", "", "", "", "", 0, "", "", ""⟩

/-- A policy node with all-default properties. -/
def basePolicy : PolicyNode := ⟨"", "", "", "", "", "", 0, 0, "", "", "", ""⟩

/-- A claim node with all-default properties. -/
def baseClaim : ClaimNode :=
  ⟨"", "", "", 0, "", "", "", "", "", "", "", "", "", "", 0, "", 0, ""⟩

/-- Two users sharing a phone who also own identical policies with one claim
each: both the phone and the policy detector fire on the pair {a, b}. -/
def gC2 : Graph :=
  { users := [{ baseUser with userId := "a", phone := "777" },
              { baseUser with userId := "b", phone := "777" }]
    policies := [{ basePolicy with
                   policyId := "pa"
                   insurance_type := "auto"
                   policy_annual_premium := 5000
                   sum_insured := 100000
                   userId := "a" },
                 { basePolicy with
                   policyId := "pb"
                   insurance_type := "auto"
                   policy_annual_premium := 5000
                   sum_insured := 100000
                   userId := "b" }]
    claims := [{ baseClaim with
                 claimId := "ca"
                 policyId := "pa"
                 claimType := "t1"
                 claimAmount := 1000
                 userId := "a" },
               { baseClaim with
                 claimId := "cb"
                 policyId := "pb"
                 claimType := "t2"
                 claimAmount := 2000
                 userId := "b" }]
    owns := [("a", "pa"), ("b", "pb")]
    hasClaim := [("pa", "ca"), ("pb", "cb")]
    filed := [("a", "ca"), ("b", "cb")] }

def userC3A : UserNode := { baseUser with userId := "a" }

def userC3B : UserNode := { baseUser with userId := "b" }

def policyC3A : PolicyNode :=
  { basePolicy with
    policyId := "pa"
    insurance_type := "auto"
    policy_annual_premium := 5000
    sum_insured := 100000
    userId := "a" }

def policyC3B : PolicyNode :=
  { basePolicy with
    policyId := "pb"
    insurance_type := "auto"
    policy_annual_premium := 5000
    sum_insured := 100000
    userId := "b" }

def claimC3A : ClaimNode :=
  { baseClaim with
    claimId := "ca"
    policyId := "pa"
    claimType := "t1"
    claimAmount := 300000
    userId := "a" }

def claimC3B : ClaimNode :=
  { baseClaim with
    claimId := "cb"
    policyId := "pb"
    claimType := "t2"
    claimAmount := 300000
    userId := "b" }

/-- Two users owning identical policies, each policy with one claim of
300000: the pair's combined claim total is 600000 (> 500000), while the
combined claim count is 2 (no count bonus). -/
def gC3 : Graph :=
  { users := [userC3A, userC3B]
    policies := [policyC3A, policyC3B]
    claims := [claimC3A, claimC3B]
    owns := [("a", "pa"), ("b", "pb")]
    hasClaim := [("pa", "ca"), ("pb", "cb")]
    filed := [("a", "ca"), ("b", "cb")] }

/-- The first policy network the detector produces on `gC3`. -/
def netC3 : Network :=
  mkPolicyNetwork userC3A userC3B policyC3A policyC3B
    (policyClaims gC3 policyC3A) (policyClaims gC3 policyC3B)

def userC4 : UserNode := { baseUser with userId := "u1" }

/-- A claim of 200000 with a given id and fraud score. -/
def mkC4Claim (cid : String) (fs : ℚ) : ClaimNode :=
  { baseClaim with claimId := cid, claimAmount := 200000, fraudScore := fs }

/-- One user with six filed claims of 200000 each, three with fraud score 1
and three with fraud score 0: claim count 6, total 1200000, average fraud
score 0.5. -/
def gC4 : Graph :=
  { users := [userC4]
    policies := []
    claims := [mkC4Claim "c1" 1, mkC4Claim "c2" 1, mkC4Claim "c3" 1,
               mkC4Claim "c4" 0, mkC4Claim "c5" 0, mkC4Claim "c6" 0]
    owns := []
    hasClaim := []
    filed := [("u1", "c1"), ("u1", "c2"), ("u1", "c3"),
              ("u1", "c4"), ("u1", "c5"), ("u1", "c6")] }

/-- The risk record `_calculate_risk_scores` produces for the user of `gC4`. -/
def rC4 : RiskRecord :=
  ⟨63/100, 6, 1/2, 1200000, 200000, "Unknown User", "No email"⟩

def userC5A : UserNode := { baseUser with userId := "a", phone := "999" }

def userC5B : UserNode := { baseUser with userId := "b", phone := "999" }

/-- Exactly two users with the same non-empty phone, each owning a policy
with one claim. -/
def gC5 : Graph :=
  { users := [userC5A, userC5B]
    policies := [{ basePolicy with policyId := "pa", userId := "a" },
                 { basePolicy with policyId := "pb", userId := "b" }]
    claims := [{ baseClaim with
                 claimId := "ca"
                 policyId := "pa"
                 claimType := "t1"
                 claimAmount := 1000
                 userId := "a" },
               { baseClaim with
                 claimId := "cb"
                 policyId := "pb"
                 claimType := "t2"
                 claimAmount := 2000
                 userId := "b" }]
    owns := [("a", "pa"), ("b", "pb")]
    hasClaim := [("pa", "ca"), ("pb", "cb")]
    filed := [("a", "ca"), ("b", "cb")] }

def userC6A : UserNode := { baseUser with userId := "a" }

def userC6B : UserNode := { baseUser with userId := "b" }

def policyC6A : PolicyNode :=
  { basePolicy with policyId := "pa", insurance_type := "auto", userId := "a" }

def policyC6B : PolicyNode :=
  { basePolicy with policyId := "pb", insurance_type := "auto", userId := "b" }

def claimC6A : ClaimNode :=
  { baseClaim with
    claimId := "ca"
    policyId := "pa"
    claimType := "theft"
    claimAmount := 50000
    incidentDate := "2024-01-01"
    userId := "a" }

def claimC6B : ClaimNode :=
  { baseClaim with
    claimId := "cb"
    policyId := "pb"
    claimType := "theft"
    claimAmount := 50000
    incidentDate := "2024-01-01"
    userId := "b" }

/-- Two different users filing claims with identical type, amount and
incident date, under policies of the same insurance type. -/
def gC6 : Graph :=
  { users := [userC6A, userC6B]
    policies := [policyC6A, policyC6B]
    claims := [claimC6A, claimC6B]
    owns := [("a", "pa"), ("b", "pb")]
    hasClaim := [("pa", "ca"), ("pb", "cb")]
    filed := [("a", "ca"), ("b", "cb")] }

/-- The first claim network the detector produces on `gC6`. -/
def netC6 : Network := mkClaimNetwork userC6A userC6B claimC6A claimC6B policyC6A

def userC7A : UserNode := { baseUser with userId := "u1" }

def userC7B : UserNode := { baseUser with userId := "u2" }

/-- Two users with two filed claims each whose submission dates contain no
`-` (unparseable under the query's `CASE`), so the date-filtered rapid-filer
query matches nothing. -/
def gC7 : Graph :=
  { users := [userC7A, userC7B]
    policies := []
    claims := [{ baseClaim with claimId := "c1", claimAmount := 100, submittedDate := "05/01/2024" },
               { baseClaim with claimId := "c2", claimAmount := 200, submittedDate := "06/01/2024" },
               { baseClaim with claimId := "c3", claimAmount := 300, submittedDate := "07/01/2024" },
               { baseClaim with claimId := "c4", claimAmount := 400, submittedDate := "08/01/2024" }]
    owns := []
    hasClaim := []
    filed := [("u1", "c1"), ("u1", "c2"), ("u2", "c3"), ("u2", "c4")] }

def userC8 : UserNode := { baseUser with userId := "u1" }

def claimC8A : ClaimNode :=
  { baseClaim with claimId := "c1", claimAmount := 100, fraudScore := 1 }

def claimC8B : ClaimNode :=
  { baseClaim with claimId := "c2", claimAmount := 200, fraudScore := 0 }

/-- One user with two filed claims, one of fraud score 1 (amount 100) and
one of fraud score 0 (amount 200): only the first matches
`fraudScore > 0.7`. -/
def gC8 : Graph :=
  { users := [userC8]
    policies := []
    claims := [claimC8A, claimC8B]
    owns := []
    hasClaim := []
    filed := [("u1", "c1"), ("u1", "c2")] }

/-- The row the high-fraud-score query produces for the user of `gC8`. -/
def rC8 : FraudUserRecord := ⟨"u1", "", "", 1, 1, 100⟩

def userInC9 : UserInput := { emptyUserInput with uid := some "u1" }

def policyInC9 : PolicyInput :=
  { emptyPolicyInput with policyId := some "p1", userId := some "u1" }

def claimInC9 : ClaimInput :=
  { emptyClaimInput with claimId := some "c1", policyId := some "p1", userId := some "u1" }

/-- The graph produced by a first successful load of the C9 input. -/
def g1C9 : Graph :=
  match loadDataFromFirestore emptyGraph "t0" [userInC9] [policyInC9] [claimInC9] with
  | .ok g => g
  | .error _ => emptyGraph

/-- Graphs equal up to the `createdAt` timestamp on user nodes — the only
node property that depends on the wall-clock time of the load. -/
def sameShape (g g' : Graph) : Prop :=
  g.users.map (fun u => { u with createdAt := "" }) =
    g'.users.map (fun u => { u with createdAt := "" })
  ∧ g.policies = g'.policies ∧ g.claims = g'.claims
  ∧ g.owns = g'.owns ∧ g.hasClaim = g'.hasClaim ∧ g.filed = g'.filed

/-- `sameShape` lifted to load outcomes: both loads fail, or both succeed
with `sameShape` graphs. -/
def sameShapeE : Except String Graph → Except String Graph → Prop
  | .error _, .error _ => True
  | .ok g, .ok g' => sameShape g g'
  | _, _ => False

end FraudRing

namespace FraudRing

/-! ### Generic list and order lemmas -/

theorem mem_pairsOf {α : Type} {l : List α} {p : α × α} :
    p ∈ pairsOf l ↔ p.1 ∈ l ∧ p.2 ∈ l := by
  cases p with
  | mk x y =>
    simp only [pairsOf, List.mem_flatMap, List.mem_map, Prod.mk.injEq]
    constructor
    · rintro ⟨a, ha, b, hb, rfl, rfl⟩
      exact ⟨ha, hb⟩
    · rintro ⟨hx, hy⟩
      exact ⟨x, hx, y, hy, rfl, rfl⟩

theorem mem_filterMap_ite {α β : Type} (l : List α) (P : α → Prop) [DecidablePred P]
    (f : α → β) (b : β) :
    (b ∈ l.filterMap fun a => if P a then some (f a) else none) ↔
      ∃ a ∈ l, P a ∧ b = f a := by
  simp only [List.mem_filterMap]
  constructor
  · rintro ⟨a, ha, hfa⟩
    by_cases hp : P a
    · rw [if_pos hp] at hfa
      exact ⟨a, ha, hp, (Option.some.inj hfa).symm⟩
    · rw [if_neg hp] at hfa
      exact absurd hfa (by simp)
  · rintro ⟨a, ha, hp, rfl⟩
    exact ⟨a, ha, if_pos hp⟩

theorem charListLe_total : ∀ (as bs : List Char),
    charListLe as bs = true ∨ charListLe bs as = true
  | [], _ => Or.inl rfl
  | _ :: _, [] => Or.inr rfl
  | a :: as, b :: bs => by
    rcases lt_trichotomy a b with h | h | h
    · left
      simp only [charListLe]
      rw [if_pos h]
    · subst h
      rcases charListLe_total as bs with ih | ih
      · left
        simp only [charListLe]
        rw [if_neg (lt_irrefl a), if_neg (lt_irrefl a)]
        exact ih
      · right
        simp only [charListLe]
        rw [if_neg (lt_irrefl a), if_neg (lt_irrefl a)]
        exact ih
    · right
      simp only [charListLe]
      rw [if_pos h]

theorem charListLe_antisymm : ∀ {as bs : List Char},
    charListLe as bs = true → charListLe bs as = true → as = bs
  | [], [], _, _ => rfl
  | [], _ :: _, _, h2 => by simp [charListLe] at h2
  | _ :: _, [], h1, _ => by simp [charListLe] at h1
  | a :: as, b :: bs, h1, h2 => by
    rcases lt_trichotomy a b with h | h | h
    · simp only [charListLe] at h2
      rw [if_neg (asymm h), if_pos h] at h2
      simp at h2
    · subst h
      simp only [charListLe] at h1 h2
      rw [if_neg (lt_irrefl a), if_neg (lt_irrefl a)] at h1 h2
      rw [charListLe_antisymm h1 h2]
    · simp only [charListLe] at h1
      rw [if_neg (asymm h), if_pos h] at h1
      simp at h1

theorem strLe_total (s t : String) : strLe s t = true ∨ strLe t s = true :=
  charListLe_total s.data t.data

theorem strLe_antisymm {s t : String} (h1 : strLe s t = true)
    (h2 : strLe t s = true) : s = t := by
  have h : s.data = t.data := charListLe_antisymm h1 h2
  exact String.ext h

theorem sortStrings_pair (a b : String) : sortStrings [a, b] = sortStrings [b, a] := by
  show insertStr a [b] = insertStr b [a]
  simp only [insertStr]
  cases hab : strLe a b <;> cases hba : strLe b a <;> simp [hab, hba, insertStr]
  · rcases strLe_total a b with h | h
    · exact absurd h (by simp [hab])
    · exact absurd h (by simp [hba])
  · have h := strLe_antisymm hab hba
    exact ⟨h, h.symm⟩

theorem dedupNetworks_filter (k : List String) :
    ∀ (l : List Network) (seen : List (List String)),
      ((dedupNetworks seen l).filter fun n => decide (networkKey n = k)) =
        if k ∈ seen then [] else ((l.filter fun n => decide (networkKey n = k)).take 1)
  | [], seen => by simp [dedupNetworks]
  | n :: rest, seen => by
    simp only [dedupNetworks]
    by_cases hn : networkKey n ∈ seen
    · rw [if_pos hn, dedupNetworks_filter k rest seen]
      by_cases hk : k ∈ seen
      · rw [if_pos hk, if_pos hk]
      · have hne : ¬ (networkKey n = k) := fun h => hk (h ▸ hn)
        rw [if_neg hk, if_neg hk, List.filter_cons_of_neg (by simpa using hne)]
    · rw [if_neg hn, List.filter_cons]
      by_cases hk : networkKey n = k
      · have hks : ¬ k ∈ seen := fun h => hn (hk.symm ▸ h)
        rw [if_pos (by simp [hk]), dedupNetworks_filter k rest (networkKey n :: seen),
          if_pos (by simp [hk]), if_neg hks, List.filter_cons_of_pos (by simp [hk])]
        simp
      · rw [if_neg (by simp [hk]), dedupNetworks_filter k rest (networkKey n :: seen)]
        by_cases hks : k ∈ seen
        · rw [if_pos (List.mem_cons_of_mem _ hks), if_pos hks]
        · rw [if_neg (by
              intro h
              rcases List.mem_cons.mp h with h | h
              · exact hk h.symm
              · exact hks h),
            if_neg hks, List.filter_cons_of_neg (by simp [hk])]

theorem mem_insertBy {α : Type} (le : α → α → Bool) (x a : α) :
    ∀ (l : List α), a ∈ insertBy le x l ↔ a = x ∨ a ∈ l
  | [] => by simp [insertBy]
  | y :: ys => by
    simp only [insertBy]
    by_cases h : le x y = true
    · rw [if_pos h]
      simp [List.mem_cons]
    · rw [if_neg h]
      rw [List.mem_cons, mem_insertBy le x a ys, List.mem_cons]
      tauto

theorem mem_sortBy {α : Type} (le : α → α → Bool) (a : α) :
    ∀ (l : List α), a ∈ sortBy le l ↔ a ∈ l
  | [] => Iff.rfl
  | x :: xs => by
    show a ∈ insertBy le x (sortBy le xs) ↔ _
    rw [mem_insertBy, mem_sortBy le a xs, List.mem_cons]

theorem length_insertBy {α : Type} (le : α → α → Bool) (x : α) :
    ∀ (l : List α), (insertBy le x l).length = l.length + 1
  | [] => rfl
  | y :: ys => by
    simp only [insertBy]
    by_cases h : le x y = true
    · rw [if_pos h]
      rfl
    · rw [if_neg h]
      simp [length_insertBy le x ys]

theorem length_sortBy {α : Type} (le : α → α → Bool) :
    ∀ (l : List α), (sortBy le l).length = l.length
  | [] => rfl
  | x :: xs => by
    show (insertBy le x (sortBy le xs)).length = _
    rw [length_insertBy, length_sortBy le xs, List.length_cons]

theorem sortBy_eq_nil_iff {α : Type} (le : α → α → Bool) (l : List α) :
    sortBy le l = [] ↔ l = [] := by
  constructor
  · intro h
    have := length_sortBy le l
    rw [h] at this
    exact List.length_eq_zero.mp this.symm
  · rintro rfl
    rfl

theorem pairwise_insertBy {α : Type} {le : α → α → Bool}
    (hTot : ∀ a b, le a b = false → le b a = true)
    (hTr : ∀ a b c, le a b = true → le b c = true → le a c = true) (x : α) :
    ∀ (l : List α), l.Pairwise (fun a b => le a b = true) →
      (insertBy le x l).Pairwise (fun a b => le a b = true)
  | [], _ => by simp [insertBy]
  | y :: ys, h => by
    simp only [insertBy]
    rcases List.pairwise_cons.mp h with ⟨hy, hys⟩
    by_cases hxy : le x y = true
    · rw [if_pos hxy]
      refine List.pairwise_cons.mpr ⟨?_, h⟩
      intro z hz
      rcases List.mem_cons.mp hz with rfl | hz
      · exact hxy
      · exact hTr x y z hxy (hy z hz)
    · rw [if_neg hxy]
      refine List.pairwise_cons.mpr ⟨?_, pairwise_insertBy hTot hTr x ys hys⟩
      intro z hz
      have hxyf : le x y = false := by
        cases hv : le x y
        · rfl
        · exact absurd hv hxy
      rcases (mem_insertBy le x z ys).mp hz with hzx | hz
      · rw [hzx]
        exact hTot x y hxyf
      · exact hy z hz

theorem pairwise_sortBy {α : Type} {le : α → α → Bool}
    (hTot : ∀ a b, le a b = false → le b a = true)
    (hTr : ∀ a b c, le a b = true → le b c = true → le a c = true) :
    ∀ (l : List α), (sortBy le l).Pairwise (fun a b => le a b = true)
  | [] => List.Pairwise.nil
  | x :: xs => pairwise_insertBy hTot hTr x _ (pairwise_sortBy hTot hTr xs)

/-! ### Characterisations of the detector outputs -/

theorem mem_detectPhoneNetworks {g : Graph} {n : Network} :
    n ∈ detectPhoneNetworks g ↔
      ∃ u1 ∈ g.users, ∃ u2 ∈ g.users,
        (u1.phone = u2.phone ∧ u1.userId ≠ u2.userId ∧ u1.phone ≠ ""
          ∧ 0 < (pathClaims g u1).length ∧ 0 < (pathClaims g u2).length)
        ∧ n = mkPhoneNetwork u1 u2 (pathClaims g u1) (pathClaims g u2) := by
  have hrw : detectPhoneNetworks g =
      (userPairs g).filterMap fun up =>
        if up.1.phone = up.2.phone ∧ up.1.userId ≠ up.2.userId ∧ up.1.phone ≠ ""
            ∧ 0 < (pathClaims g up.1).length ∧ 0 < (pathClaims g up.2).length
        then some (mkPhoneNetwork up.1 up.2 (pathClaims g up.1) (pathClaims g up.2))
        else none := rfl
  rw [hrw, mem_filterMap_ite]
  constructor
  · rintro ⟨⟨u1, u2⟩, hup, hP, hn⟩
    exact ⟨u1, (mem_pairsOf.mp hup).1, u2, (mem_pairsOf.mp hup).2, hP, hn⟩
  · rintro ⟨u1, h1, u2, h2, hP, hn⟩
    exact ⟨(u1, u2), mem_pairsOf.mpr ⟨h1, h2⟩, hP, hn⟩

theorem mem_detectPolicyNetworks {g : Graph} {n : Network} :
    n ∈ detectPolicyNetworks g ↔
      ∃ u1 ∈ g.users, ∃ u2 ∈ g.users, ∃ p1 ∈ g.policies, ∃ p2 ∈ g.policies,
        (ownsEdge g u1 p1 ∧ ownsEdge g u2 p2
          ∧ u1.userId ≠ u2.userId
          ∧ p1.insurance_type = p2.insurance_type
          ∧ p1.policy_annual_premium = p2.policy_annual_premium
          ∧ p1.sum_insured = p2.sum_insured
          ∧ 0 < p1.policy_annual_premium
          ∧ 0 < (policyClaims g p1).length ∧ 0 < (policyClaims g p2).length)
        ∧ n = mkPolicyNetwork u1 u2 p1 p2 (policyClaims g p1) (policyClaims g p2) := by
  have hrw : detectPolicyNetworks g =
      (userPairs g).flatMap fun up =>
        (pairsOf g.policies).filterMap fun pp =>
          if ownsEdge g up.1 pp.1 ∧ ownsEdge g up.2 pp.2
              ∧ up.1.userId ≠ up.2.userId
              ∧ pp.1.insurance_type = pp.2.insurance_type
              ∧ pp.1.policy_annual_premium = pp.2.policy_annual_premium
              ∧ pp.1.sum_insured = pp.2.sum_insured
              ∧ 0 < pp.1.policy_annual_premium
              ∧ 0 < (policyClaims g pp.1).length ∧ 0 < (policyClaims g pp.2).length
          then some (mkPolicyNetwork up.1 up.2 pp.1 pp.2
            (policyClaims g pp.1) (policyClaims g pp.2))
          else none := rfl
  rw [hrw]
  simp only [List.mem_flatMap, mem_filterMap_ite]
  constructor
  · rintro ⟨⟨u1, u2⟩, hup, ⟨p1, p2⟩, hpp, hP, hn⟩
    exact ⟨u1, (mem_pairsOf.mp hup).1, u2, (mem_pairsOf.mp hup).2,
      p1, (mem_pairsOf.mp hpp).1, p2, (mem_pairsOf.mp hpp).2, hP, hn⟩
  · rintro ⟨u1, h1, u2, h2, p1, hp1, p2, hp2, hP, hn⟩
    exact ⟨(u1, u2), mem_pairsOf.mpr ⟨h1, h2⟩, (p1, p2), mem_pairsOf.mpr ⟨hp1, hp2⟩, hP, hn⟩

theorem mem_detectClaimNetworks {g : Graph} {n : Network} :
    n ∈ detectClaimNetworks g ↔
      ∃ u1 ∈ g.users, ∃ u2 ∈ g.users, ∃ c1 ∈ g.claims, ∃ c2 ∈ g.claims,
        ∃ p1 ∈ g.policies, ∃ p2 ∈ g.policies,
        (filedEdge g u1 c1 ∧ filedEdge g u2 c2
          ∧ u1.userId ≠ u2.userId
          ∧ c1.claimType = c2.claimType
          ∧ c1.claimAmount = c2.claimAmount
          ∧ c1.incidentDate = c2.incidentDate
          ∧ 0 < c1.claimAmount
          ∧ hasClaimEdge g p1 c1 ∧ hasClaimEdge g p2 c2
          ∧ p1.insurance_type = p2.insurance_type)
        ∧ n = mkClaimNetwork u1 u2 c1 c2 p1 := by
  have hrw : detectClaimNetworks g =
      (userPairs g).flatMap fun up =>
        (pairsOf g.claims).flatMap fun cc =>
          (pairsOf g.policies).filterMap fun pp =>
            if filedEdge g up.1 cc.1 ∧ filedEdge g up.2 cc.2
                ∧ up.1.userId ≠ up.2.userId
                ∧ cc.1.claimType = cc.2.claimType
                ∧ cc.1.claimAmount = cc.2.claimAmount
                ∧ cc.1.incidentDate = cc.2.incidentDate
                ∧ 0 < cc.1.claimAmount
                ∧ hasClaimEdge g pp.1 cc.1 ∧ hasClaimEdge g pp.2 cc.2
                ∧ pp.1.insurance_type = pp.2.insurance_type
            then some (mkClaimNetwork up.1 up.2 cc.1 cc.2 pp.1)
            else none := rfl
  rw [hrw]
  simp only [List.mem_flatMap, mem_filterMap_ite]
  constructor
  · rintro ⟨⟨u1, u2⟩, hup, ⟨c1, c2⟩, hcc, ⟨p1, p2⟩, hpp, hP, hn⟩
    exact ⟨u1, (mem_pairsOf.mp hup).1, u2, (mem_pairsOf.mp hup).2,
      c1, (mem_pairsOf.mp hcc).1, c2, (mem_pairsOf.mp hcc).2,
      p1, (mem_pairsOf.mp hpp).1, p2, (mem_pairsOf.mp hpp).2, hP, hn⟩
  · rintro ⟨u1, h1, u2, h2, c1, hc1, c2, hc2, p1, hp1, p2, hp2, hP, hn⟩
    exact ⟨(u1, u2), mem_pairsOf.mpr ⟨h1, h2⟩, (c1, c2), mem_pairsOf.mpr ⟨hc1, hc2⟩,
      (p1, p2), mem_pairsOf.mpr ⟨hp1, hp2⟩, hP, hn⟩

/-- C1: the network risk score is 0.3, plus 0.3 / 0.2 steps on the combined
claim count and combined claim total, clamped to [0,1]. -/
theorem C1_network_risk_score_formula (c1 c2 t1 t2 : ℚ) :
    calculateNetworkRiskScore ⟨some c1, some c2, some t1, some t2⟩ =
      max 0 (min 1 ((3/10 : ℚ)
        + (if c1 + c2 > 5 then 3/10 else if c1 + c2 > 2 then 2/10 else 0)
        + (if t1 + t2 > 1000000 then 3/10 else if t1 + t2 > 500000 then 2/10 else 0))) := by
  simp only [calculateNetworkRiskScore, Option.getD_some]
  split_ifs <;> norm_num [min_def, max_def]

end FraudRing

namespace FraudRing

/-- The risk-score formula on a record with absent amount keys: only the
claim-count bonus can fire, so the result is the spec formula at combined
total 0, and is at most 0.6. -/
theorem calcScore_counts_only (a b : ℚ) :
    calculateNetworkRiskScore ⟨some a, some b, none, none⟩ = specNetworkRiskScore (a + b) 0
    ∧ calculateNetworkRiskScore ⟨some a, some b, none, none⟩ ≤ 3/5 := by
  simp only [calculateNetworkRiskScore, specNetworkRiskScore, Option.getD_some, Option.getD_none]
  rw [if_neg (by norm_num : ¬((0:ℚ) + 0 > 1000000)),
    if_neg (by norm_num : ¬((0:ℚ) + 0 > 500000)),
    if_neg (by norm_num : ¬((0:ℚ) > 1000000)),
    if_neg (by norm_num : ¬((0:ℚ) > 500000))]
  constructor
  · split_ifs <;> norm_num [min_def, max_def]
  · split_ifs <;> norm_num [min_def, max_def]

/-- C2: `_detect_suspicious_networks` concatenates the phone, policy and
claim detectors' outputs in that order and `_remove_duplicate_networks`
keeps, for each sorted pair of user ids, exactly the first network of the
concatenation carrying that pair; in particular when both the phone and the
policy detector report networks for the same unordered pair, exactly one
network for that pair survives, and it comes from the phone detector (the
earlier one). -/
theorem C2_dedup_first_wins (g : Graph) (k : List String) :
    ((detectSuspiciousNetworks g).filter fun n => decide (networkKey n = k)) =
      (((detectPhoneNetworks g ++ detectPolicyNetworks g ++ detectClaimNetworks g).filter
        fun n => decide (networkKey n = k)).take 1)
    ∧ ((∃ n ∈ detectPhoneNetworks g, networkKey n = k) →
       (∃ n ∈ detectPolicyNetworks g, networkKey n = k) →
       ∃ m, ((detectSuspiciousNetworks g).filter fun n => decide (networkKey n = k)) = [m]
         ∧ m ∈ detectPhoneNetworks g ∧ networkKey m = k) := by
  have hmain : ((detectSuspiciousNetworks g).filter fun n => decide (networkKey n = k)) =
      (((detectPhoneNetworks g ++ detectPolicyNetworks g ++ detectClaimNetworks g).filter
        fun n => decide (networkKey n = k)).take 1) := by
    rw [detectSuspiciousNetworks, removeDuplicateNetworks, dedupNetworks_filter]
    rw [if_neg (List.not_mem_nil k)]
  refine ⟨hmain, ?_⟩
  rintro ⟨n1, hn1, hk1⟩ ⟨n2, hn2, hk2⟩
  have hne : ((detectPhoneNetworks g).filter fun n => decide (networkKey n = k)) ≠ [] := by
    intro h
    have hmem : n1 ∈ (detectPhoneNetworks g).filter fun n => decide (networkKey n = k) :=
      List.mem_filter.mpr ⟨hn1, by simp [hk1]⟩
    rw [h] at hmem
    exact absurd hmem (List.not_mem_nil n1)
  obtain ⟨m, ms, hcons⟩ := List.exists_cons_of_ne_nil hne
  have hm : m ∈ (detectPhoneNetworks g).filter fun n => decide (networkKey n = k) := by
    rw [hcons]
    exact List.mem_cons_self m ms
  refine ⟨m, ?_, (List.mem_filter.mp hm).1, by simpa using (List.mem_filter.mp hm).2⟩
  rw [hmain, List.append_assoc, List.filter_append, hcons]
  simp

/-- C2 witness: on a concrete graph where both the phone and the policy
detector fire on the pair {a, b}, the aggregate keeps exactly one network
for that pair, from the phone detector. -/
theorem C2_dedup_first_wins_witness :
    ∃ m, ((detectSuspiciousNetworks gC2).filter fun n =>
        decide (networkKey n = ["a", "b"])) = [m]
      ∧ m ∈ detectPhoneNetworks gC2 ∧ networkKey m = ["a", "b"] :=
  (C2_dedup_first_wins gC2 ["a", "b"]).2 (by decide) (by decide)

/-- C3 counterexample: on `gC3` the policy-network detector's pair has
combined claim count 2 and combined claim total 600000; the §4.4 formula on
those values gives 0.5, but the returned network's risk score is 0.3 (the
query passes no totals to the formula). -/
theorem C3_policy_amounts_counterexample :
    netC3 ∈ detectPolicyNetworks gC3
    ∧ (policyClaims gC3 policyC3A).length = 1
    ∧ (policyClaims gC3 policyC3B).length = 1
    ∧ totalAmount (policyClaims gC3 policyC3A) = 300000
    ∧ totalAmount (policyClaims gC3 policyC3B) = 300000
    ∧ specNetworkRiskScore (1 + 1) (300000 + 300000) = 1/2
    ∧ netC3.risk_score = 3/10
    ∧ (3/10 : ℚ) ≠ 1/2 := by
  have hA : policyClaims gC3 policyC3A = [claimC3A] := by decide
  have hB : policyClaims gC3 policyC3B = [claimC3B] := by decide
  have hmem : netC3 ∈ detectPolicyNetworks gC3 :=
    mem_detectPolicyNetworks.mpr ⟨userC3A, by decide, userC3B, by decide,
      policyC3A, by decide, policyC3B, by decide,
      ⟨by decide, by decide, by decide, by decide, by decide, by decide,
       by decide, by decide, by decide⟩, rfl⟩
  refine ⟨hmem, by decide, by decide, ?_, ?_, ?_, ?_, by norm_num⟩
  · rw [hA]
    norm_num [totalAmount, claimC3A, baseClaim]
  · rw [hB]
    norm_num [totalAmount, claimC3B, baseClaim]
  · norm_num [specNetworkRiskScore, min_def, max_def]
  · show (mkPolicyNetwork userC3A userC3B policyC3A policyC3B
      (policyClaims gC3 policyC3A) (policyClaims gC3 policyC3B)).risk_score = 3/10
    rw [mkPolicyNetwork]
    rw [hA, hB]
    norm_num [calculateNetworkRiskScore, min_def]

/-- C3 (amended): every policy network's risk score equals the §4.4 formula
applied to the pair's combined claim count and a combined claim total of 0 —
the policy query returns no amount fields, so the amount bonus never fires
and the score never exceeds 0.6. -/
theorem C3_policy_network_risk_amended (g : Graph) (n : Network)
    (hn : n ∈ detectPolicyNetworks g) :
    (∃ p1 ∈ g.policies, ∃ p2 ∈ g.policies,
      0 < (policyClaims g p1).length ∧ 0 < (policyClaims g p2).length ∧
      n.risk_score = specNetworkRiskScore
        (((policyClaims g p1).length : ℚ) + ((policyClaims g p2).length : ℚ)) 0)
    ∧ n.risk_score ≤ 3/5 := by
  rcases mem_detectPolicyNetworks.mp hn with
    ⟨u1, _, u2, _, p1, hp1, p2, hp2, hP, rfl⟩
  have hrisk : (mkPolicyNetwork u1 u2 p1 p2
      (policyClaims g p1) (policyClaims g p2)).risk_score =
      calculateNetworkRiskScore ⟨some ((policyClaims g p1).length : ℚ),
        some ((policyClaims g p2).length : ℚ), none, none⟩ := rfl
  refine ⟨⟨p1, hp1, p2, hp2, hP.2.2.2.2.2.2.2.1, hP.2.2.2.2.2.2.2.2, ?_⟩, ?_⟩
  · rw [hrisk]
    exact (calcScore_counts_only _ _).1
  · rw [hrisk]
    exact (calcScore_counts_only _ _).2

/-- C3 (amended) witness: the policy network of `gC3` has risk score equal
to the spec formula at combined count 2 and total 0, and at most 0.6. -/
theorem C3_policy_network_risk_amended_witness :
    (∃ p1 ∈ gC3.policies, ∃ p2 ∈ gC3.policies,
      0 < (policyClaims gC3 p1).length ∧ 0 < (policyClaims gC3 p2).length ∧
      netC3.risk_score = specNetworkRiskScore
        (((policyClaims gC3 p1).length : ℚ) + ((policyClaims gC3 p2).length : ℚ)) 0)
    ∧ netC3.risk_score ≤ 3/5 :=
  C3_policy_network_risk_amended gC3 netC3
    (mem_detectPolicyNetworks.mpr ⟨userC3A, by decide, userC3B, by decide,
      policyC3A, by decide, policyC3B, by decide,
      ⟨by decide, by decide, by decide, by decide, by decide, by decide,
       by decide, by decide, by decide⟩, rfl⟩)

/-- C6: every network returned by the claim-network detector has the fixed
risk score 0.9 and type "claim_network", independent of claim counts or
amounts. -/
theorem C6_claim_network_risk_constant (g : Graph) (n : Network)
    (hn : n ∈ detectClaimNetworks g) :
    n.risk_score = 9/10 ∧ n.type = "claim_network" := by
  rcases mem_detectClaimNetworks.mp hn with
    ⟨u1, _, u2, _, c1, _, c2, _, p1, _, p2, _, _, rfl⟩
  exact ⟨rfl, rfl⟩

/-- C6 witness: on `gC6` (two identical claims by different users under
same-insurance-type policies) the claim detector produces a network, and its
risk score is 0.9. -/
theorem C6_claim_network_risk_constant_witness :
    netC6 ∈ detectClaimNetworks gC6
      ∧ netC6.risk_score = 9/10 ∧ netC6.type = "claim_network" := by
  have h : netC6 ∈ detectClaimNetworks gC6 :=
    mem_detectClaimNetworks.mpr ⟨userC6A, by decide, userC6B, by decide,
      claimC6A, by decide, claimC6B, by decide, policyC6A, by decide, policyC6B, by decide,
      ⟨by decide, by decide, by decide, by decide, by decide, by decide,
       by decide, by decide, by decide, by decide⟩, rfl⟩
  exact ⟨h, C6_claim_network_risk_constant gC6 netC6 h⟩

/-- C10: every network produced by the policy- or claim-network detector has
`user_names = ["Unknown", "Unknown"]`: those queries read `u1.name` /
`u2.name`, but user nodes only carry `displayName`, never `name`, so both
values are null and replaced by the placeholder. -/
theorem C10_names_unknown (g : Graph) (n : Network)
    (hn : n ∈ detectPolicyNetworks g ++ detectClaimNetworks g) :
    n.user_names = ["Unknown", "Unknown"] := by
  rcases List.mem_append.mp hn with h | h
  · rcases mem_detectPolicyNetworks.mp h with
      ⟨u1, _, u2, _, p1, _, p2, _, _, rfl⟩
    rfl
  · rcases mem_detectClaimNetworks.mp h with
      ⟨u1, _, u2, _, c1, _, c2, _, p1, _, p2, _, _, rfl⟩
    rfl

/-- C10 witness: the policy network of `gC3` indeed carries
`["Unknown", "Unknown"]` as user names. -/
theorem C10_names_unknown_witness :
    netC3 ∈ detectPolicyNetworks gC3 ++ detectClaimNetworks gC3
      ∧ netC3.user_names = ["Unknown", "Unknown"] := by
  have h : netC3 ∈ detectPolicyNetworks gC3 ++ detectClaimNetworks gC3 :=
    List.mem_append.mpr (Or.inl
      (mem_detectPolicyNetworks.mpr ⟨userC3A, by decide, userC3B, by decide,
        policyC3A, by decide, policyC3B, by decide,
        ⟨by decide, by decide, by decide, by decide, by decide, by decide,
         by decide, by decide, by decide⟩, rfl⟩))
  exact ⟨h, C10_names_unknown gC3 netC3 h⟩

end FraudRing

namespace FraudRing

/-- Characterisation of `_calculate_risk_scores` output entries. -/
theorem mem_calculateRiskScores {g : Graph} {pr : String × RiskRecord} :
    pr ∈ calculateRiskScores g ↔
      ∃ u ∈ g.users, 0 < (filedClaims g u).length ∧
        pr = (u.userId,
          ⟨min (((filedClaims g u).length : ℚ) / 10) 1 * (3/10)
            + totalFraudScore (filedClaims g u) / ((filedClaims g u).length : ℚ) * (5/10)
            + min (totalAmount (filedClaims g u) / 1000000) 1 * (2/10),
          (filedClaims g u).length,
          totalFraudScore (filedClaims g u) / ((filedClaims g u).length : ℚ),
          totalAmount (filedClaims g u), maxClaimAmount (filedClaims g u),
          pyOr (some u.displayName) "Unknown User", pyOr (some u.email) "No email"⟩) := by
  have hrw : calculateRiskScores g = g.users.filterMap fun u =>
      if 0 < (filedClaims g u).length then
        some (u.userId,
          (⟨min (((filedClaims g u).length : ℚ) / 10) 1 * (3/10)
            + totalFraudScore (filedClaims g u) / ((filedClaims g u).length : ℚ) * (5/10)
            + min (totalAmount (filedClaims g u) / 1000000) 1 * (2/10),
          (filedClaims g u).length,
          totalFraudScore (filedClaims g u) / ((filedClaims g u).length : ℚ),
          totalAmount (filedClaims g u), maxClaimAmount (filedClaims g u),
          pyOr (some u.displayName) "Unknown User",
          pyOr (some u.email) "No email"⟩ : RiskRecord))
      else none := rfl
  rw [hrw, mem_filterMap_ite]

/-- C4 (amended): for every user with at least one filed claim the risk
scorer outputs `overall_risk = 0.3 * min(claimCount/10, 1) +
0.5 * avgFraudScore + 0.2 * min(totalClaimAmount/1000000, 1)`; in
particular a record with 6 claims totalling 1200000 at average fraud score
0.5 has overall risk 0.63. -/
theorem C4_risk_scorer_formula (g : Graph) (pr : String × RiskRecord)
    (hpr : pr ∈ calculateRiskScores g) :
    ∃ u ∈ g.users, pr.1 = u.userId
      ∧ 0 < (filedClaims g u).length
      ∧ pr.2.claim_count = (filedClaims g u).length
      ∧ pr.2.avg_fraud_score =
          totalFraudScore (filedClaims g u) / ((filedClaims g u).length : ℚ)
      ∧ pr.2.total_amount = totalAmount (filedClaims g u)
      ∧ pr.2.overall_risk =
          (3/10) * min ((pr.2.claim_count : ℚ) / 10) 1
          + (5/10) * pr.2.avg_fraud_score
          + (2/10) * min (pr.2.total_amount / 1000000) 1
      ∧ (pr.2.claim_count = 6 → pr.2.avg_fraud_score = 1/2 →
          pr.2.total_amount = 1200000 → pr.2.overall_risk = 63/100) := by
  rcases mem_calculateRiskScores.mp hpr with ⟨u, hu, hP, rfl⟩
  refine ⟨u, hu, rfl, hP, rfl, rfl, rfl, ?_, ?_⟩
  · dsimp only
    ring
  · intro h6 havg htot
    dsimp only at h6 havg htot ⊢
    rw [h6] at havg ⊢
    rw [havg, htot]
    norm_num

/-- The risk record `_calculate_risk_scores` produces on `gC4`. -/
theorem rC4_mem : ("u1", rC4) ∈ calculateRiskScores gC4 := by
  have hfc : filedClaims gC4 userC4 = gC4.claims := by decide
  refine mem_calculateRiskScores.mpr ⟨userC4, by decide, by decide, ?_⟩
  rw [hfc]
  have h1 : totalFraudScore gC4.claims = 3 := by
    norm_num [totalFraudScore, gC4, mkC4Claim, baseClaim]
  have h2 : totalAmount gC4.claims = 1200000 := by
    norm_num [totalAmount, gC4, mkC4Claim, baseClaim]
  have h3 : maxClaimAmount gC4.claims = 200000 := by
    norm_num [maxClaimAmount, gC4, mkC4Claim, baseClaim]
  have h4 : gC4.claims.length = 6 := by decide
  rw [h1, h2, h3, h4]
  show ("u1", rC4) = (userC4.userId, _)
  have h5 : userC4.userId = "u1" := by decide
  rw [h5, Prod.mk.injEq]
  refine ⟨rfl, ?_⟩
  rw [rC4, RiskRecord.mk.injEq]
  norm_num [pyOr, userC4, baseUser]

/-- C4 witness: the theorem applied to the record `_calculate_risk_scores`
produces on `gC4`. -/
theorem C4_risk_scorer_formula_witness :
    ∃ u ∈ gC4.users, ("u1", rC4).1 = u.userId
      ∧ 0 < (filedClaims gC4 u).length
      ∧ rC4.claim_count = (filedClaims gC4 u).length
      ∧ rC4.avg_fraud_score =
          totalFraudScore (filedClaims gC4 u) / ((filedClaims gC4 u).length : ℚ)
      ∧ rC4.total_amount = totalAmount (filedClaims gC4 u)
      ∧ rC4.overall_risk =
          (3/10) * min ((rC4.claim_count : ℚ) / 10) 1
          + (5/10) * rC4.avg_fraud_score
          + (2/10) * min (rC4.total_amount / 1000000) 1
      ∧ (rC4.claim_count = 6 → rC4.avg_fraud_score = 1/2 →
          rC4.total_amount = 1200000 → rC4.overall_risk = 63/100) :=
  C4_risk_scorer_formula gC4 ("u1", rC4) rC4_mem

/-- C4 counterexample: a user with 6 claims totalling 1,200,000 at average
fraud score 0.5 does not get overall risk 0.85 — `gC4` realises exactly
those numbers and the scorer outputs 0.63. -/
theorem C4_example_counterexample :
    ¬ (∀ (g : Graph), ∀ pr ∈ calculateRiskScores g,
        pr.2.claim_count = 6 → pr.2.avg_fraud_score = 1/2 →
        pr.2.total_amount = 1200000 → pr.2.overall_risk = 85/100) := by
  intro h
  have h85 := h gC4 ("u1", rC4) rC4_mem rfl rfl rfl
  rw [show rC4.overall_risk = 63/100 from rfl] at h85
  norm_num at h85

/-- Characterisation of the grouped rows of the high-fraud-score query. -/
theorem mem_highFraudRows {g : Graph} {r : FraudUserRecord} :
    r ∈ highFraudRows g ↔
      ∃ u ∈ g.users,
        0 < ((filedClaims g u).filter fun c => decide (c.fraudScore > 7/10)).length ∧
        r = ⟨u.userId, u.email, u.phone,
          ((filedClaims g u).filter fun c => decide (c.fraudScore > 7/10)).length,
          totalFraudScore ((filedClaims g u).filter fun c => decide (c.fraudScore > 7/10)) /
            (((filedClaims g u).filter fun c => decide (c.fraudScore > 7/10)).length : ℚ),
          totalAmount ((filedClaims g u).filter fun c => decide (c.fraudScore > 7/10))⟩ := by
  have hrw : highFraudRows g = g.users.filterMap fun u =>
      if 0 < ((filedClaims g u).filter fun c => decide (c.fraudScore > 7/10)).length then
        some (⟨u.userId, u.email, u.phone,
          ((filedClaims g u).filter fun c => decide (c.fraudScore > 7/10)).length,
          totalFraudScore ((filedClaims g u).filter fun c => decide (c.fraudScore > 7/10)) /
            (((filedClaims g u).filter fun c => decide (c.fraudScore > 7/10)).length : ℚ),
          totalAmount ((filedClaims g u).filter fun c => decide (c.fraudScore > 7/10))⟩
          : FraudUserRecord)
      else none := rfl
  rw [hrw, mem_filterMap_ite]

/-- C8 (amended): the high-fraud-score indicator returns at most 20 entries,
one per user with at least one claim of fraud score above 0.7, ordered by
average fraud score descending; each entry's claim count, average fraud
score and total amount range over that user's claims with fraud score above
0.7 only (not over all of the user's claims). -/
theorem C8_high_fraud_users (g : Graph) :
    (∀ r ∈ highFraudScoreUsers g,
      ∃ u ∈ g.users, r.userId = u.userId
        ∧ 0 < ((filedClaims g u).filter fun c => decide (c.fraudScore > 7/10)).length
        ∧ r.claim_count =
            ((filedClaims g u).filter fun c => decide (c.fraudScore > 7/10)).length
        ∧ r.avg_fraud_score =
            totalFraudScore ((filedClaims g u).filter fun c => decide (c.fraudScore > 7/10)) /
              (((filedClaims g u).filter fun c => decide (c.fraudScore > 7/10)).length : ℚ)
        ∧ r.total_amount =
            totalAmount ((filedClaims g u).filter fun c => decide (c.fraudScore > 7/10)))
    ∧ (highFraudScoreUsers g).length ≤ 20
    ∧ (highFraudScoreUsers g).Pairwise (fun a b => b.avg_fraud_score ≤ a.avg_fraud_score)
    ∧ ((highFraudRows g).length ≤ 20 →
        ∀ u ∈ g.users,
          0 < ((filedClaims g u).filter fun c => decide (c.fraudScore > 7/10)).length →
          ∃ r ∈ highFraudScoreUsers g, r.userId = u.userId) := by
  refine ⟨?_, ?_, ?_, ?_⟩
  · intro r hr
    have hr' : r ∈ sortBy byAvgDesc (highFraudRows g) :=
      (List.take_sublist 20 _).subset hr
    rcases mem_highFraudRows.mp ((mem_sortBy byAvgDesc r _).mp hr') with ⟨u, hu, hP, rfl⟩
    exact ⟨u, hu, rfl, hP, rfl, rfl, rfl⟩
  · rw [highFraudScoreUsers, List.length_take]
    exact min_le_left _ _
  · have hs : (sortBy byAvgDesc (highFraudRows g)).Pairwise
        (fun a b => byAvgDesc a b = true) :=
      pairwise_sortBy
        (fun a b hab => by
          simp only [byAvgDesc, decide_eq_true_eq] at hab ⊢
          have : ¬ (b.avg_fraud_score ≤ a.avg_fraud_score) := by
            simpa using hab
          exact le_of_not_le this)
        (fun a b c hab hbc => by
          simp only [byAvgDesc, decide_eq_true_eq] at hab hbc ⊢
          exact le_trans hbc hab) _
    exact ((hs.sublist (List.take_sublist 20 _)).imp fun h => by
      simpa [byAvgDesc] using h)
  · intro hlen u hu hpos
    have hlen' : (sortBy byAvgDesc (highFraudRows g)).length ≤ 20 := by
      rw [length_sortBy]
      exact hlen
    rw [highFraudScoreUsers, List.take_of_length_le hlen']
    refine ⟨_, (mem_sortBy byAvgDesc _ _).mpr
      (mem_highFraudRows.mpr ⟨u, hu, hpos, rfl⟩), rfl⟩

/-- The single row of the high-fraud-score query on `gC8`: only the
fraud-score-1 claim passes the 0.7 filter. -/
theorem hfilC8 :
    (filedClaims gC8 userC8).filter (fun c => decide (c.fraudScore > 7/10)) = [claimC8A] := by
  rw [show filedClaims gC8 userC8 = [claimC8A, claimC8B] from by decide]
  rw [List.filter_cons_of_pos (by norm_num [claimC8A, baseClaim]),
    List.filter_cons_of_neg (by norm_num [claimC8B, baseClaim]), List.filter_nil]

/-- C8 witness: the theorem applied to `gC8` yields an entry for its user. -/
theorem C8_high_fraud_users_witness :
    ∃ r ∈ highFraudScoreUsers gC8, r.userId = userC8.userId := by
  have hlen : (highFraudRows gC8).length ≤ 20 :=
    le_trans (List.length_filterMap_le _ _) (by decide)
  have hpos : 0 < ((filedClaims gC8 userC8).filter
      fun c => decide (c.fraudScore > 7/10)).length := by
    rw [hfilC8]
    decide
  exact (C8_high_fraud_users gC8).2.2.2 hlen userC8 (by decide) hpos

/-- C8 counterexample: the entries do not carry the user's overall claim
count — on `gC8` the user has 2 filed claims but the entry reports 1 (the
number of claims with fraud score above 0.7). -/
theorem C8_counterexample :
    ¬ (∀ (g : Graph), ∀ r ∈ highFraudScoreUsers g, ∀ u ∈ g.users,
        r.userId = u.userId → r.claim_count = (filedClaims g u).length) := by
  intro h
  have hrow : rC8 ∈ highFraudRows gC8 := by
    refine mem_highFraudRows.mpr ⟨userC8, by decide, ?_, ?_⟩
    · rw [hfilC8]
      decide
    · rw [hfilC8]
      rw [rC8, FraudUserRecord.mk.injEq]
      norm_num [totalFraudScore, totalAmount, claimC8A, baseClaim, userC8, baseUser]
  have hlen : (sortBy byAvgDesc (highFraudRows gC8)).length ≤ 20 := by
    rw [length_sortBy]
    exact le_trans (List.length_filterMap_le _ _) (by decide)
  have hmem : rC8 ∈ highFraudScoreUsers gC8 := by
    rw [highFraudScoreUsers, List.take_of_length_le hlen]
    exact (mem_sortBy byAvgDesc _ _).mpr hrow
  have h2 := h gC8 rC8 hmem userC8 (by decide) (by decide)
  rw [show filedClaims gC8 userC8 = [claimC8A, claimC8B] from by decide] at h2
  exact absurd h2 (by decide)

end FraudRing

namespace FraudRing

/-- Characterisation of the fallback rapid-filer rows. -/
theorem mem_fallbackRapidRows {g : Graph} {r : RapidRecord} :
    r ∈ fallbackRapidRows g ↔
      ∃ u ∈ g.users, 2 ≤ (filedClaims g u).length ∧
        r = ⟨u.userId, u.email, u.phone, (filedClaims g u).length,
          totalAmount (filedClaims g u)⟩ := by
  have hrw : fallbackRapidRows g = g.users.filterMap fun u =>
      if 2 ≤ (filedClaims g u).length then
        some (⟨u.userId, u.email, u.phone, (filedClaims g u).length,
          totalAmount (filedClaims g u)⟩ : RapidRecord)
      else none := rfl
  rw [hrw, mem_filterMap_ite]

/-- C7: the rapid-filer indicator equals the date-filtered query's rows
(ordered by claim count descending) when that query is non-empty, and
exactly when it is empty it degrades to the fallback — users with at least
2 filed claims, dates ignored, ordered by claim count descending, capped at
10.  In particular, when every claim's submission date lacks a `-` (and is
therefore unparseable for the query's `CASE`), the primary query returns
nothing and every user with at least two filed claims shows up in the
fallback output (given the at-most-10 cap is not exceeded). -/
theorem C7_rapid_filer_fallback (pdatetime pdate : String → ℤ) (g : Graph) :
    (primaryRapidFilers pdatetime pdate g = [] →
      rapidClaimFilers pdatetime pdate g =
        (sortBy byCountDesc (fallbackRapidRows g)).take 10)
    ∧ (primaryRapidFilers pdatetime pdate g ≠ [] →
      rapidClaimFilers pdatetime pdate g =
        sortBy byCountDesc (primaryRapidFilers pdatetime pdate g))
    ∧ ((∀ c ∈ g.claims, c.submittedDate.data.contains '-' = false) →
        primaryRapidFilers pdatetime pdate g = []
        ∧ ((fallbackRapidRows g).length ≤ 10 →
          ∀ u ∈ g.users, 2 ≤ (filedClaims g u).length →
          ∃ r ∈ rapidClaimFilers pdatetime pdate g,
            r.userId = u.userId ∧ r.claim_count = (filedClaims g u).length)) := by
  have hA : primaryRapidFilers pdatetime pdate g = [] →
      rapidClaimFilers pdatetime pdate g =
        (sortBy byCountDesc (fallbackRapidRows g)).take 10 := by
    intro h
    simp only [rapidClaimFilers, h]
    rfl
  refine ⟨hA, ?_, ?_⟩
  · intro hne
    have hcond : ¬ ((sortBy byCountDesc (primaryRapidFilers pdatetime pdate g)).isEmpty = true) := by
      intro hempty
      exact hne ((sortBy_eq_nil_iff _ _).mp (List.isEmpty_iff.mp hempty))
    simp only [rapidClaimFilers]
    rw [if_neg hcond]
  · intro hc
    have hprim : primaryRapidFilers pdatetime pdate g = [] := by
      apply List.filterMap_eq_nil_iff.mpr
      intro u hu
      have hrows : ((filedClaims g u).filterMap fun c =>
          if c.submittedDate ≠ "" then
            (parsedDate pdatetime pdate c.submittedDate).map fun d => (c, d)
          else none) = [] := by
        apply List.filterMap_eq_nil_iff.mpr
        intro c hcmem
        have hcg : c ∈ g.claims := (List.mem_filter.mp hcmem).1
        by_cases hd : c.submittedDate ≠ ""
        · rw [if_pos hd, parsedDate, if_neg (by rw [hc c hcg]; simp)]
          rfl
        · rw [if_neg hd]
      show (match ((filedClaims g u).filterMap fun c =>
          if c.submittedDate ≠ "" then
            (parsedDate pdatetime pdate c.submittedDate).map fun d => (c, d)
          else none) with
        | [] => none
        | (_, d0) :: _ => _) = none
      rw [hrows]
    refine ⟨hprim, ?_⟩
    intro hlen u hu h2
    rw [hA hprim]
    have hlen' : (sortBy byCountDesc (fallbackRapidRows g)).length ≤ 10 := by
      rw [length_sortBy]
      exact hlen
    rw [List.take_of_length_le hlen']
    exact ⟨⟨u.userId, u.email, u.phone, (filedClaims g u).length,
        totalAmount (filedClaims g u)⟩,
      (mem_sortBy _ _ _).mpr (mem_fallbackRapidRows.mpr ⟨u, hu, h2, rfl⟩), rfl, rfl⟩

/-- C7 witness: on `gC7` (all submission dates lack `-`, two users with two
claims each) the primary query is empty and both users appear through the
fallback. -/
theorem C7_rapid_filer_fallback_witness :
    primaryRapidFilers (fun _ => 0) (fun _ => 0) gC7 = []
    ∧ ∃ r ∈ rapidClaimFilers (fun _ => 0) (fun _ => 0) gC7,
        r.userId = userC7A.userId ∧ r.claim_count = (filedClaims gC7 userC7A).length := by
  have h := (C7_rapid_filer_fallback (fun _ => 0) (fun _ => 0) gC7).2.2 (by decide)
  exact ⟨h.1, h.2 (le_trans (List.length_filterMap_le _ _) (by decide))
    userC7A (by decide) (by decide)⟩

end FraudRing

namespace FraudRing

/-- If every key of `l` was already seen, deduplication drops all of `l`. -/
theorem dedupNetworks_eq_nil (seen : List (List String)) :
    ∀ (l : List Network), (∀ n ∈ l, networkKey n ∈ seen) → dedupNetworks seen l = []
  | [], _ => rfl
  | n :: rest, h => by
    simp only [dedupNetworks]
    rw [if_pos (h n (List.mem_cons_self n rest))]
    exact dedupNetworks_eq_nil seen rest fun x hx => h x (List.mem_cons_of_mem n hx)

/-- When every later network carries the same key as the head, deduplication
keeps exactly the head. -/
theorem dedupNetworks_cons_same (n : Network) (rest : List Network)
    (h : ∀ x ∈ rest, networkKey x = networkKey n) :
    dedupNetworks [] (n :: rest) = [n] := by
  simp only [dedupNetworks]
  rw [if_neg (List.not_mem_nil _),
    dedupNetworks_eq_nil _ rest fun x hx => by
      rw [h x hx]
      exact List.mem_cons_self _ _]

/-- C5: on a graph with exactly two users sharing a non-empty phone, with
distinct ids, each owning a policy with at least one claim, suspicious-
network detection returns exactly one network; it has type "phone_network"
and its users field contains both user ids (the symmetric query rows give
both orientations of the pair, and pair deduplication keeps one). -/
theorem C5_phone_pair_single_network (g : Graph) (uA uB : UserNode)
    (husers : g.users = [uA, uB])
    (hphone : uA.phone = uB.phone) (hnm : uA.phone ≠ "")
    (hid : uA.userId ≠ uB.userId)
    (hA : ∃ p ∈ g.policies, ∃ c ∈ g.claims, ownsEdge g uA p ∧ hasClaimEdge g p c)
    (hB : ∃ p ∈ g.policies, ∃ c ∈ g.claims, ownsEdge g uB p ∧ hasClaimEdge g p c) :
    ∃ n, detectSuspiciousNetworks g = [n]
      ∧ n.type = "phone_network" ∧ uA.userId ∈ n.users ∧ uB.userId ∈ n.users := by
  have clA : 0 < (pathClaims g uA).length := by
    obtain ⟨p, hp, c, hcg, ho, hhc⟩ := hA
    exact List.length_pos_of_mem
      (List.mem_filter.mpr ⟨hcg, decide_eq_true ⟨p, hp, ho, hhc⟩⟩)
  have clB : 0 < (pathClaims g uB).length := by
    obtain ⟨p, hp, c, hcg, ho, hhc⟩ := hB
    exact List.length_pos_of_mem
      (List.mem_filter.mpr ⟨hcg, decide_eq_true ⟨p, hp, ho, hhc⟩⟩)
  have hn1 : mkPhoneNetwork uA uB (pathClaims g uA) (pathClaims g uB)
      ∈ detectPhoneNetworks g :=
    mem_detectPhoneNetworks.mpr ⟨uA, by rw [husers]; simp, uB, by rw [husers]; simp,
      ⟨hphone, hid, hnm, clA, clB⟩, rfl⟩
  have keyPair : ∀ (x y : UserNode), x ∈ g.users → y ∈ g.users →
      x.userId ≠ y.userId →
      sortStrings [x.userId, y.userId] = sortStrings [uA.userId, uB.userId] := by
    intro x y hx hy hxy
    rw [husers] at hx hy
    have hx2 : x = uA ∨ x = uB := by simpa using hx
    have hy2 : y = uA ∨ y = uB := by simpa using hy
    rcases hx2 with rfl | rfl <;> rcases hy2 with rfl | rfl
    · exact absurd rfl hxy
    · rfl
    · exact sortStrings_pair _ _
    · exact absurd rfl hxy
  have hkeys : ∀ n ∈ detectPhoneNetworks g ++ detectPolicyNetworks g
      ++ detectClaimNetworks g,
      networkKey n = sortStrings [uA.userId, uB.userId] := by
    intro n hn
    rcases List.mem_append.mp hn with hn' | hcl
    · rcases List.mem_append.mp hn' with hph | hpo
      · rcases mem_detectPhoneNetworks.mp hph with ⟨x, hx, y, hy, hP, rfl⟩
        exact keyPair x y hx hy hP.2.1
      · rcases mem_detectPolicyNetworks.mp hpo with
          ⟨x, hx, y, hy, p1, _, p2, _, hP, rfl⟩
        exact keyPair x y hx hy hP.2.2.1
    · rcases mem_detectClaimNetworks.mp hcl with
        ⟨x, hx, y, hy, c1, _, c2, _, p1, _, p2, _, hP, rfl⟩
      exact keyPair x y hx hy hP.2.2.1
  obtain ⟨n1, t, hphlist⟩ := List.exists_cons_of_ne_nil (List.ne_nil_of_mem hn1)
  have hnet : detectPhoneNetworks g ++ detectPolicyNetworks g ++ detectClaimNetworks g
      = n1 :: (t ++ detectPolicyNetworks g ++ detectClaimNetworks g) := by
    rw [hphlist]
    rfl
  have hn1mem : n1 ∈ detectPhoneNetworks g := by
    rw [hphlist]
    exact List.mem_cons_self _ _
  have hdedup : detectSuspiciousNetworks g = [n1] := by
    rw [detectSuspiciousNetworks, removeDuplicateNetworks, hnet]
    apply dedupNetworks_cons_same
    intro x hx
    have hxnet : x ∈ detectPhoneNetworks g ++ detectPolicyNetworks g
        ++ detectClaimNetworks g := by
      rw [hnet]
      exact List.mem_cons_of_mem _ hx
    rw [hkeys x hxnet, hkeys n1 (by
      rw [hnet]
      exact List.mem_cons_self _ _)]
  rcases mem_detectPhoneNetworks.mp hn1mem with ⟨x, hx, y, hy, hP, hn1eq⟩
  have hxy : (x = uA ∧ y = uB) ∨ (x = uB ∧ y = uA) := by
    have hx' : x = uA ∨ x = uB := by
      rw [husers] at hx
      simpa using hx
    have hy' : y = uA ∨ y = uB := by
      rw [husers] at hy
      simpa using hy
    have hne' := hP.2.1
    rcases hx' with rfl | rfl <;> rcases hy' with rfl | rfl
    · exact absurd rfl hne'
    · exact Or.inl ⟨rfl, rfl⟩
    · exact Or.inr ⟨rfl, rfl⟩
    · exact absurd rfl hne'
  refine ⟨n1, hdedup, ?_, ?_, ?_⟩
  · rw [hn1eq]
    rfl
  · rw [hn1eq]
    rcases hxy with ⟨rfl, rfl⟩ | ⟨rfl, rfl⟩ <;> simp [mkPhoneNetwork]
  · rw [hn1eq]
    rcases hxy with ⟨rfl, rfl⟩ | ⟨rfl, rfl⟩ <;> simp [mkPhoneNetwork]

/-- C5 witness: the theorem applied to the concrete two-user graph `gC5`. -/
theorem C5_phone_pair_single_network_witness :
    ∃ n, detectSuspiciousNetworks gC5 = [n]
      ∧ n.type = "phone_network"
      ∧ userC5A.userId ∈ n.users ∧ userC5B.userId ∈ n.users :=
  C5_phone_pair_single_network gC5 userC5A userC5B rfl (by decide) (by decide)
    (by decide) (by decide) (by decide)

end FraudRing

namespace FraudRing

/-- `sameShape` graphs have the same user-id sequence. -/
theorem sameShape_userIds {g g' : Graph} (h : sameShape g g') :
    g.users.map (fun u => u.userId) = g'.users.map (fun u => u.userId) := by
  have h1 := congrArg (List.map fun u : UserNode => u.userId) h.1
  rw [List.map_map, List.map_map] at h1
  exact h1

/-- The duplicate-userId check reads only the id projection. -/
theorem any_userId_proj (s : String) :
    ∀ (l : List UserNode),
      (l.any fun x => decide (x.userId = s))
        = ((l.map fun u => u.userId).any fun i => decide (i = s))
  | [] => rfl
  | a :: l => by
    simp only [List.any_cons, List.map_cons]
    rw [any_userId_proj s l]

/-- `sameShape` graphs agree on the duplicate-userId check. -/
theorem any_userId_eq {g g' : Graph} (h : sameShape g g') (s : String) :
    (g.users.any fun x => decide (x.userId = s))
      = (g'.users.any fun x => decide (x.userId = s)) := by
  rw [any_userId_proj s g.users, any_userId_proj s g'.users, sameShape_userIds h]

/-- A filter-and-flatMap over nodes that reads only a projected field can be
pushed to the projections. -/
theorem filter_flatMap_proj {α β γ : Type} (f : α → β) (p : β → Bool) (F : β → List γ) :
    ∀ (l : List α),
      ((l.filter fun a => p (f a)).flatMap fun a => F (f a))
        = ((l.map f).filter p).flatMap F
  | [] => rfl
  | a :: l => by
    simp only [List.filter_cons, List.map_cons]
    by_cases hp : p (f a) = true
    · rw [if_pos hp, if_pos hp]
      simp only [List.flatMap_cons]
      rw [filter_flatMap_proj f p F l]
    · rw [if_neg hp, if_neg hp]
      exact filter_flatMap_proj f p F l

/-- `_create_relationships` produces identical edges on `sameShape` graphs:
every edge endpoint is matched and recorded through node ids only. -/
theorem createRelationships_sameShape {g g' : Graph} (h : sameShape g g')
    (ps : List PolicyInput) (cs : List ClaimInput) :
    sameShape (createRelationships g ps cs) (createRelationships g' ps cs) := by
  obtain ⟨hu, hp, hc, ho, hhc, hf⟩ := h
  have hids := sameShape_userIds ⟨hu, hp, hc, ho, hhc, hf⟩
  refine ⟨hu, hp, hc, ?_, ?_, ?_⟩
  · show g.owns ++ _ = g'.owns ++ _
    rw [ho]
    congr 1
    congr 1
    funext pol
    rw [filter_flatMap_proj (fun u : UserNode => u.userId)
        (fun i => decide (i = pol.userId.getD ""))
        (fun i => (g.policies.filter fun p =>
          decide (p.policyId = pol.policyId.getD "")).map fun p => (i, p.policyId)),
      filter_flatMap_proj (fun u : UserNode => u.userId)
        (fun i => decide (i = pol.userId.getD ""))
        (fun i => (g'.policies.filter fun p =>
          decide (p.policyId = pol.policyId.getD "")).map fun p => (i, p.policyId)),
      hids, hp]
  · show g.hasClaim ++ _ = g'.hasClaim ++ _
    rw [hhc, hp, hc]
  · show g.filed ++ _ = g'.filed ++ _
    rw [hf]
    congr 1
    congr 1
    funext cl
    rw [filter_flatMap_proj (fun u : UserNode => u.userId)
        (fun i => decide (i = cl.userId.getD ""))
        (fun i => (g.claims.filter fun c =>
          decide (c.claimId = cl.claimId.getD "")).map fun c => (i, c.claimId)),
      filter_flatMap_proj (fun u : UserNode => u.userId)
        (fun i => decide (i = cl.userId.getD ""))
        (fun i => (g'.claims.filter fun c =>
          decide (c.claimId = cl.claimId.getD "")).map fun c => (i, c.claimId)),
      hids, hc]

/-- User-node creation behaves the same at different load times: the node's
id does not depend on the timestamp, so the two runs fail together or keep
`sameShape` graphs. -/
theorem addUserNodes_sim (now now' : String) :
    ∀ (us : List UserInput) (g g' : Graph), sameShape g g' →
      sameShapeE (addUserNodes now g us) (addUserNodes now' g' us)
  | [], _, _, h => h
  | u :: rest, g, g', h => by
    simp only [addUserNodes]
    have hany : (g'.users.any fun x => decide (x.userId = (createUserNode now' u).userId))
        = (g.users.any fun x => decide (x.userId = (createUserNode now u).userId)) :=
      (any_userId_eq h ((createUserNode now u).userId)).symm
    by_cases hdup : (g.users.any fun x =>
        decide (x.userId = (createUserNode now u).userId)) = true
    · rw [if_pos hdup, if_pos (hany.trans hdup)]
      trivial
    · rw [if_neg hdup, if_neg (fun hh => hdup (hany ▸ hh))]
      apply addUserNodes_sim now now' rest
      refine ⟨?_, h.2.1, h.2.2.1, h.2.2.2.1, h.2.2.2.2.1, h.2.2.2.2.2⟩
      show (g.users ++ [createUserNode now u]).map _ = (g'.users ++ [createUserNode now' u]).map _
      rw [List.map_append, List.map_append, h.1]
      rfl

/-- Policy-node creation preserves `sameShape` (it never reads users). -/
theorem addPolicyNodes_sim :
    ∀ (ps : List PolicyInput) (g g' : Graph), sameShape g g' →
      sameShapeE (addPolicyNodes g ps) (addPolicyNodes g' ps)
  | [], _, _, h => h
  | p :: rest, g, g', h => by
    simp only [addPolicyNodes]
    have hp := h.2.1
    by_cases hdup : (g.policies.any fun x =>
        decide (x.policyId = (createPolicyNode p).policyId)) = true
    · rw [if_pos hdup, if_pos (by rw [← hp]; exact hdup)]
      trivial
    · rw [if_neg hdup, if_neg (by rw [← hp]; exact hdup)]
      apply addPolicyNodes_sim rest
      exact ⟨h.1, by rw [hp], h.2.2.1, h.2.2.2.1, h.2.2.2.2.1, h.2.2.2.2.2⟩

/-- Claim-node creation preserves `sameShape`. -/
theorem addClaimNodes_sim :
    ∀ (cs : List ClaimInput) (g g' : Graph), sameShape g g' →
      sameShapeE (addClaimNodes g cs) (addClaimNodes g' cs)
  | [], _, _, h => h
  | c :: rest, g, g', h => by
    simp only [addClaimNodes]
    have hc := h.2.2.1
    by_cases hdup : (g.claims.any fun x =>
        decide (x.claimId = (createClaimNode c).claimId)) = true
    · rw [if_pos hdup, if_pos (by rw [← hc]; exact hdup)]
      trivial
    · rw [if_neg hdup, if_neg (by rw [← hc]; exact hdup)]
      apply addClaimNodes_sim rest
      exact ⟨h.1, h.2.1, by rw [hc], h.2.2.2.1, h.2.2.2.2.1, h.2.2.2.2.2⟩

/-- C9: loading is idempotent with respect to graph contents — if a load of
the input succeeds, loading the same input again (at any later time stamp)
succeeds as well and leaves the same node and edge counts, because every
load first wipes the graph and rebuilds it from the input alone. -/
theorem C9_load_idempotent (prior : Graph) (now now' : String)
    (users : List UserInput) (policies : List PolicyInput)
    (claims : List ClaimInput) (g1 : Graph)
    (h : loadDataFromFirestore prior now users policies claims = Except.ok g1) :
    ∃ g2, loadDataFromFirestore g1 now' users policies claims = Except.ok g2
      ∧ g2.users.length = g1.users.length
      ∧ g2.policies.length = g1.policies.length
      ∧ g2.claims.length = g1.claims.length
      ∧ g2.owns.length = g1.owns.length
      ∧ g2.hasClaim.length = g1.hasClaim.length
      ∧ g2.filed.length = g1.filed.length := by
  have hsim : sameShapeE (loadDataFromFirestore prior now users policies claims)
      (loadDataFromFirestore g1 now' users policies claims) := by
    have h1 := addUserNodes_sim now now' users emptyGraph emptyGraph
      ⟨rfl, rfl, rfl, rfl, rfl, rfl⟩
    cases hu : addUserNodes now emptyGraph users with
    | error e =>
      cases hu' : addUserNodes now' emptyGraph users with
      | error e' =>
        have hL : loadDataFromFirestore prior now users policies claims
            = Except.error e := by
          simp only [loadDataFromFirestore, hu]
        have hL' : loadDataFromFirestore g1 now' users policies claims
            = Except.error e' := by
          simp only [loadDataFromFirestore, hu']
        rw [hL, hL']
        trivial
      | ok gb =>
        rw [hu, hu'] at h1
        exact absurd h1 (by simp [sameShapeE])
    | ok ga =>
      cases hu' : addUserNodes now' emptyGraph users with
      | error e' =>
        rw [hu, hu'] at h1
        exact absurd h1 (by simp [sameShapeE])
      | ok gb =>
        rw [hu, hu'] at h1
        simp only [sameShapeE] at h1
        have h2 := addPolicyNodes_sim policies ga gb h1
        cases hpo : addPolicyNodes ga policies with
        | error e =>
          cases hpo' : addPolicyNodes gb policies with
          | error e' =>
            have hL : loadDataFromFirestore prior now users policies claims
                = Except.error e := by
              simp only [loadDataFromFirestore, hu, hpo]
            have hL' : loadDataFromFirestore g1 now' users policies claims
                = Except.error e' := by
              simp only [loadDataFromFirestore, hu', hpo']
            rw [hL, hL']
            trivial
          | ok gd =>
            rw [hpo, hpo'] at h2
            exact absurd h2 (by simp [sameShapeE])
        | ok gc =>
          cases hpo' : addPolicyNodes gb policies with
          | error e' =>
            rw [hpo, hpo'] at h2
            exact absurd h2 (by simp [sameShapeE])
          | ok gd =>
            rw [hpo, hpo'] at h2
            simp only [sameShapeE] at h2
            have h3 := addClaimNodes_sim claims gc gd h2
            cases hcl : addClaimNodes gc claims with
            | error e =>
              cases hcl' : addClaimNodes gd claims with
              | error e' =>
                have hL : loadDataFromFirestore prior now users policies claims
                    = Except.error e := by
                  simp only [loadDataFromFirestore, hu, hpo, hcl]
                have hL' : loadDataFromFirestore g1 now' users policies claims
                    = Except.error e' := by
                  simp only [loadDataFromFirestore, hu', hpo', hcl']
                rw [hL, hL']
                trivial
              | ok gf =>
                rw [hcl, hcl'] at h3
                exact absurd h3 (by simp [sameShapeE])
            | ok ge =>
              cases hcl' : addClaimNodes gd claims with
              | error e' =>
                rw [hcl, hcl'] at h3
                exact absurd h3 (by simp [sameShapeE])
              | ok gf =>
                rw [hcl, hcl'] at h3
                simp only [sameShapeE] at h3
                have hL : loadDataFromFirestore prior now users policies claims
                    = Except.ok (createRelationships ge policies claims) := by
                  simp only [loadDataFromFirestore, hu, hpo, hcl]
                have hL' : loadDataFromFirestore g1 now' users policies claims
                    = Except.ok (createRelationships gf policies claims) := by
                  simp only [loadDataFromFirestore, hu', hpo', hcl']
                rw [hL, hL']
                exact createRelationships_sameShape h3 policies claims
  rw [h] at hsim
  cases hload : loadDataFromFirestore g1 now' users policies claims with
  | error e =>
    rw [hload] at hsim
    simp [sameShapeE] at hsim
  | ok g2 =>
    rw [hload] at hsim
    simp only [sameShapeE] at hsim
    obtain ⟨hus, hps, hcs, how, hhc, hfi⟩ := hsim
    have hulen : g2.users.length = g1.users.length := by
      have := congrArg List.length hus
      rw [List.length_map, List.length_map] at this
      exact this.symm
    exact ⟨g2, rfl, hulen, by rw [hps], by rw [hcs], by rw [how], by rw [hhc], by rw [hfi]⟩

/-- C9 witness: a concrete one-user, one-policy, one-claim input loads
successfully twice with identical counts. -/
theorem C9_load_idempotent_witness :
    ∃ g2, loadDataFromFirestore g1C9 "t1" [userInC9] [policyInC9] [claimInC9] = Except.ok g2
      ∧ g2.users.length = g1C9.users.length
      ∧ g2.policies.length = g1C9.policies.length
      ∧ g2.claims.length = g1C9.claims.length
      ∧ g2.owns.length = g1C9.owns.length
      ∧ g2.hasClaim.length = g1C9.hasClaim.length
      ∧ g2.filed.length = g1C9.filed.length :=
  C9_load_idempotent emptyGraph "t0" "t1" [userInC9] [policyInC9] [claimInC9] g1C9 rfl

end FraudRing
